import Mathlib

/-!
Verification of the PharmaGuard genotype-to-risk decision pipeline.

This file is a shallow embedding of the pipeline stages in
`backend/pipeline/` (variant extraction, phenotype calling,
phenoconversion detection, risk assessment, confidence scoring and
calibration) and of the VCF parser in `backend/pipeline/vcf_parser.py`.

Modelling conventions:
* Python floats are modelled as rationals (`ℚ`); `round(x, n)` is modelled
  as decimal rounding with ties to even (Python's banker's rounding).
* Python dicts with unique insertion-ordered keys are modelled as
  association lists looked up with `List.lookup`.
* Python string operations (`strip`, `lower`, `upper`, `replace` of a
  single character, substring tests, comparisons) are modelled
  character-list-wise, matching Python's code-point semantics on the
  ASCII data this pipeline handles.
* The externally loaded rule set (`rules.v1.json`, consumed through
  `pipeline/rules_loader.py`) is modelled as an explicit `Rules`
  structure; theorems quantify over its contents wherever possible.
-/

namespace PharmaGuard

/-- Characters removed by Python `str.strip()` (ASCII whitespace set). -/
def isPyWhitespace (c : Char) : Bool :=
  c = ' ' || c = '\t' || c = '\n' || c = '\r' || c = '\x0b' || c = '\x0c'

/-- Python `str.strip()` on a character list. -/
def trimChars (cs : List Char) : List Char :=
  ((cs.dropWhile isPyWhitespace).reverse.dropWhile isPyWhitespace).reverse

/-- Python `str.strip()`. -/
def pyStrip (s : String) : String := (trimChars s.data).asString

/-- Python `str.lower()` (ASCII). -/
def pyLower (s : String) : String := (s.data.map Char.toLower).asString

/-- Python `str.upper()` (ASCII). -/
def pyUpper (s : String) : String := (s.data.map Char.toUpper).asString

/-- Python string `<` on code points, as a list comparison. -/
def charListLt : List Char → List Char → Bool
  | [], [] => false
  | [], _ :: _ => true
  | _ :: _, [] => false
  | a :: as, b :: bs =>
    if a.toNat < b.toNat then true
    else if b.toNat < a.toNat then false
    else charListLt as bs

/-- `needle` occurs as a contiguous substring of `hay` (Python `in`). -/
def containsSeq (needle hay : List Char) : Bool :=
  (List.range (hay.length + 1)).any fun i => needle.isPrefixOf (hay.drop i)

/-! ## Stage 2: variant extractor (`pipeline/variant_extractor.py`) -/

/-- A parsed variant, `models/schemas.py` `VariantRecord`. -/
structure VariantRecord where
  chrom : String
  pos : Int
  rsid : String
  ref : String
  alt : String
  qual : ℚ
  gene : String
  star_allele : String
  genotype : String
  function : Option String
deriving DecidableEq, Repr

/-- `determine_zygosity` in `variant_extractor.py`. -/
def determine_zygosity (genotype : String) : String :=
  if genotype ∈ ["1/1", "1|1", "0/0", "0|0"] then "homozygous"
  else if genotype ∈ ["0/1", "1/0", "0|1", "1|0"] then "heterozygous"
  else "heterozygous"

/-- `is_reference_genotype` in `variant_extractor.py`. -/
def is_reference_genotype (genotype : String) : Bool :=
  decide (genotype ∈ ["0/0", "0|0"])

/-- Row of the curated risk table (the three fields `assess_risk` reads;
the action/alternatives fields feed only stages outside the claims). -/
structure RiskRow where
  risk_label : String
  severity : String
  confidence_score : ℚ
deriving DecidableEq, Repr

/-- The slice of the loaded rule set (`rules_loader.LoadedRules`) that the
verified stages consult. -/
structure Rules where
  targetGenes : List String
  defaultDiplotype : String
  cyp2d6ActivityScores : List (String × ℚ)
  diplotypePhenotypes : List (String × List ((String × String) × String))
  riskTable : List ((String × String × String) × RiskRow)
deriving Repr

/-- The star alleles one variant contributes in `extract_diplotypes`:
reference calls and `*1` contribute nothing, homozygous variants
contribute the allele twice, heterozygous once. -/
def alleleContribution (v : VariantRecord) : List String :=
  if v.star_allele = "" then []
  else if is_reference_genotype v.genotype then []
  else if v.star_allele = "*1" then []
  else if determine_zygosity v.genotype = "homozygous" then [v.star_allele, v.star_allele]
  else [v.star_allele]

/-- `gene_variants[gene]`: the input variants with a truthy gene equal to
`gene`, in input order. -/
def geneVariants (gene : String) (variants : List VariantRecord) : List VariantRecord :=
  variants.filter fun v => decide (v.gene ≠ "" ∧ v.gene = gene)

/-- The `star_alleles` list accumulated for one gene's variants. -/
def starAlleles (gvars : List VariantRecord) : List String :=
  gvars.flatMap alleleContribution

/-- `x.replace("*", "")` on the characters of an allele name. -/
def stripStar (cs : List Char) : List Char := cs.filter fun c => decide (c ≠ '*')

/-- `x.replace("x", "99")` on the characters of an allele name. -/
def sentinelX (cs : List Char) : List Char :=
  cs.flatMap fun c => if c = 'x' then ['9', '9'] else [c]

/-- The sort key `(x.replace("*", "").replace("x", "99"), x)` used in
`extract_diplotypes` line 92. -/
def alleleKey (s : String) : List Char × List Char :=
  (sentinelX (stripStar s.data), s.data)

/-- Python's `<` on the pair of strings forming the sort key. -/
def keyLt (p q : List Char × List Char) : Bool :=
  charListLt p.1 q.1 || (decide (p.1 = q.1) && charListLt p.2 q.2)

/-- `sorted([a, b], key=alleleKey)` for exactly two elements: Python's
stable sort swaps the pair exactly when the second key is strictly
smaller. -/
def sortTwo (a b : String) : String × String :=
  if keyLt (alleleKey b) (alleleKey a) then (b, a) else (a, b)

/-- The `if len(star_alleles) == 0 / == 1 / >= 2` branches of
`extract_diplotypes`. -/
def buildDiplotype (rules : Rules) : List String → String
  | [] => rules.defaultDiplotype
  | [a] => "*1/" ++ a
  | a :: b :: _ => (sortTwo a b).1 ++ "/" ++ (sortTwo a b).2

/-- Diplotype built for one target gene inside `extract_diplotypes`. -/
def diplotypeForGene (rules : Rules) (gene : String) (variants : List VariantRecord) : String :=
  let gvars := geneVariants gene variants
  if gvars.isEmpty then rules.defaultDiplotype
  else buildDiplotype rules (starAlleles gvars)

/-- `extract_diplotypes`: the gene → diplotype map, one entry per target
gene in rule-set order. -/
def extract_diplotypes (rules : Rules) (variants : List VariantRecord) :
    List (String × String) :=
  rules.targetGenes.map fun gene => (gene, diplotypeForGene rules gene variants)

/-! ## Stage 3: phenotype caller (`pipeline/pypgx_engine.py`) -/

/-- Python `str.split(sep)` for a one-character separator. -/
def splitChar (sep : Char) (cs : List Char) : List (List Char) :=
  cs.foldr
    (fun c acc =>
      match acc with
      | [] => [[c]]
      | g :: gs => if c = sep then [] :: g :: gs else (c :: g) :: gs)
    [[]]

/-- `parse_diplotype_string` in `pypgx_engine.py`: split on `/`, strip,
prefix `*` when missing, default `*1` for malformed parts. -/
def parse_diplotype_string (diplotype : String) : String × String :=
  if ¬ containsSeq ['/'] diplotype.data then ("*1", "*1")
  else
    match splitChar '/' diplotype.data with
    | [p1, p2] =>
      let a1 := trimChars p1
      let a2 := trimChars p2
      let b1 := match a1 with
        | [] => ([] : List Char)
        | c :: _ => if c = '*' then a1 else '*' :: a1
      let b2 := match a2 with
        | [] => ([] : List Char)
        | c :: _ => if c = '*' then a2 else '*' :: a2
      (if b1 = [] then "*1" else b1.asString, if b2 = [] then "*1" else b2.asString)
    | _ => ("*1", "*1")

/-- `call_cyp2d6_phenotype_by_activity`: sum the two activity scores
(unknown alleles default to 1.0) and classify by the CPIC thresholds. -/
def call_cyp2d6_phenotype_by_activity (rules : Rules) (allele1 allele2 : String) : String :=
  let score1 := (List.lookup allele1 rules.cyp2d6ActivityScores).getD 1
  let score2 := (List.lookup allele2 rules.cyp2d6ActivityScores).getD 1
  let total := score1 + score2
  if total = 0 then "Poor Metabolizer"
  else if total ≤ 1 then "Intermediate Metabolizer"
  else if total ≤ 2.25 then "Normal Metabolizer"
  else "Ultrarapid Metabolizer"

/-- The per-gene curated allele-function sets hard-coded in
`infer_phenotype_from_alleles` (`.get(gene, [])` on the literal dicts). -/
def nonFunctionalAlleles (gene : String) : List String :=
  (List.lookup gene
    [("CYP2C19", ["*2", "*3", "*4", "*5", "*6", "*7", "*8"]),
     ("CYP2C9", ["*3", "*5", "*6", "*11", "*13"]),
     ("SLCO1B1", ["*5"]),
     ("TPMT", ["*2", "*3A", "*3B", "*3C"]),
     ("DPYD", ["*2A", "*13"])]).getD []

/-- Decreased-function allele sets in `infer_phenotype_from_alleles`. -/
def decreasedFunctionAlleles (gene : String) : List String :=
  (List.lookup gene
    [("CYP2C19", []),
     ("CYP2C9", ["*2", "*8"]),
     ("SLCO1B1", []),
     ("TPMT", []),
     ("DPYD", ["HapB3", "c.1129-5923C>G"])]).getD []

/-- Increased-function allele sets in `infer_phenotype_from_alleles`. -/
def increasedFunctionAlleles (gene : String) : List String :=
  (List.lookup gene [("CYP2C19", ["*17"])]).getD []

/-- `infer_phenotype_from_alleles`: cascade of allele-function checks used
for the genes without activity scores. -/
def infer_phenotype_from_alleles (gene allele1 allele2 : String) : String :=
  let nf := nonFunctionalAlleles gene
  let dec := decreasedFunctionAlleles gene
  let inc := increasedFunctionAlleles gene
  if allele1 ∈ nf ∧ allele2 ∈ nf then
    if gene = "SLCO1B1" then "Poor Function" else "Poor Metabolizer"
  else if allele1 ∈ nf ∨ allele2 ∈ nf then
    if gene = "SLCO1B1" then "Decreased Function" else "Intermediate Metabolizer"
  else if allele1 ∈ dec ∧ allele2 ∈ dec then
    if gene = "SLCO1B1" then "Poor Function" else "Poor Metabolizer"
  else if allele1 ∈ dec ∨ allele2 ∈ dec then
    if gene = "SLCO1B1" then "Decreased Function" else "Intermediate Metabolizer"
  else if allele1 ∈ inc ∧ allele2 ∈ inc then "Ultrarapid Metabolizer"
  else if allele1 ∈ inc ∨ allele2 ∈ inc then "Rapid Metabolizer"
  else if gene = "SLCO1B1" then "Normal Function"
  else "Normal Metabolizer"

/-- The direct diplotype-table lookup in `call_phenotype`: the gene's
curated table, tried with both allele orderings. -/
def directDiplotypeLookup (rules : Rules) (gene : String) (p : String × String) :
    Option String :=
  match List.lookup gene rules.diplotypePhenotypes with
  | none => none
  | some m =>
    match List.lookup (p.1, p.2) m with
    | some ph => some ph
    | none => List.lookup (p.2, p.1) m

/-- `call_phenotype`: direct diplotype-table lookup (both orderings),
then the CYP2D6 activity-score model, then allele-function inference. -/
def call_phenotype (rules : Rules) (gene diplotype : String) : String :=
  if gene ∉ rules.targetGenes then "Unknown"
  else
    let p := parse_diplotype_string diplotype
    match directDiplotypeLookup rules gene p with
    | some ph => ph
    | none =>
      if gene = "CYP2D6" then call_cyp2d6_phenotype_by_activity rules p.1 p.2
      else infer_phenotype_from_alleles gene p.1 p.2

/-- The total CYP2D6 activity score of a diplotype: the sum of the two
parsed alleles' scores, with 1.0 for alleles absent from the score table
(`score1 + score2` in `call_cyp2d6_phenotype_by_activity`). -/
def cyp2d6TotalActivity (rules : Rules) (diplotype : String) : ℚ :=
  let p := parse_diplotype_string diplotype
  (List.lookup p.1 rules.cyp2d6ActivityScores).getD 1 +
    (List.lookup p.2 rules.cyp2d6ActivityScores).getD 1

/-- `get_all_phenotypes`: phenotype for every gene of a diplotype map. -/
def get_all_phenotypes (rules : Rules) (diplotypes : List (String × String)) :
    List (String × String) :=
  diplotypes.map fun gd => (gd.1, call_phenotype rules gd.1 gd.2)

/-! ## Concrete rule set -/

/-- Modelled from the spec: the loaded rule set.  The pipeline consumes it
through `rules_loader.py` from `rules.v1.json`, which is not part of the
embedded sources; the contents below follow §6 "Rule Set input" and the
spec's scenario rows, and coincide with the legacy constant tables in
`models/constants.py`. -/
def defaultRules : Rules where
  targetGenes := ["CYP2D6", "CYP2C19", "CYP2C9", "SLCO1B1", "TPMT", "DPYD"]
  defaultDiplotype := "*1/*1"
  cyp2d6ActivityScores :=
    [("*1", 1), ("*2", 1), ("*3", 0), ("*4", 0), ("*5", 0), ("*6", 0),
     ("*9", 0.5), ("*10", 0.25), ("*17", 0.5), ("*29", 0.5), ("*41", 0.5),
     ("*1xN", 2), ("*2xN", 2)]
  diplotypePhenotypes :=
    [("CYP2D6",
      [(("*1", "*1"), "Normal Metabolizer"), (("*1", "*2"), "Normal Metabolizer"),
       (("*2", "*2"), "Normal Metabolizer"), (("*1", "*4"), "Intermediate Metabolizer"),
       (("*2", "*4"), "Intermediate Metabolizer"), (("*1", "*10"), "Intermediate Metabolizer"),
       (("*4", "*4"), "Poor Metabolizer"), (("*4", "*5"), "Poor Metabolizer"),
       (("*5", "*5"), "Poor Metabolizer"), (("*3", "*4"), "Poor Metabolizer"),
       (("*1", "*1xN"), "Ultrarapid Metabolizer"), (("*2", "*2xN"), "Ultrarapid Metabolizer")]),
     ("CYP2C19",
      [(("*1", "*1"), "Normal Metabolizer"), (("*1", "*2"), "Intermediate Metabolizer"),
       (("*1", "*3"), "Intermediate Metabolizer"), (("*2", "*2"), "Poor Metabolizer"),
       (("*2", "*3"), "Poor Metabolizer"), (("*3", "*3"), "Poor Metabolizer"),
       (("*1", "*17"), "Rapid Metabolizer"), (("*17", "*17"), "Ultrarapid Metabolizer")]),
     ("CYP2C9",
      [(("*1", "*1"), "Normal Metabolizer"), (("*1", "*2"), "Intermediate Metabolizer"),
       (("*1", "*3"), "Intermediate Metabolizer"), (("*2", "*2"), "Poor Metabolizer"),
       (("*2", "*3"), "Poor Metabolizer"), (("*3", "*3"), "Poor Metabolizer")]),
     ("SLCO1B1",
      [(("*1", "*1"), "Normal Function"), (("*1", "*5"), "Decreased Function"),
       (("*5", "*5"), "Poor Function"), (("*1", "*1B"), "Normal Function"),
       (("*1B", "*5"), "Decreased Function")]),
     ("TPMT",
      [(("*1", "*1"), "Normal Metabolizer"), (("*1", "*2"), "Intermediate Metabolizer"),
       (("*1", "*3A"), "Intermediate Metabolizer"), (("*1", "*3B"), "Intermediate Metabolizer"),
       (("*1", "*3C"), "Intermediate Metabolizer"), (("*3A", "*3A"), "Poor Metabolizer"),
       (("*3B", "*3C"), "Poor Metabolizer"), (("*2", "*3A"), "Poor Metabolizer")]),
     ("DPYD",
      [(("*1", "*1"), "Normal Metabolizer"), (("*1", "*2A"), "Intermediate Metabolizer"),
       (("*1", "*13"), "Intermediate Metabolizer"), (("*1", "HapB3"), "Intermediate Metabolizer"),
       (("*2A", "*2A"), "Poor Metabolizer"), (("*2A", "*13"), "Poor Metabolizer"),
       (("*13", "*13"), "Poor Metabolizer")])]
  riskTable :=
    [(("CODEINE", "CYP2D6", "Poor Metabolizer"), ⟨"Toxic", "critical", 0.95⟩),
     (("CODEINE", "CYP2D6", "Ultrarapid Metabolizer"), ⟨"Toxic", "critical", 0.92⟩),
     (("CODEINE", "CYP2D6", "Intermediate Metabolizer"), ⟨"Adjust Dosage", "moderate", 0.85⟩),
     (("CODEINE", "CYP2D6", "Normal Metabolizer"), ⟨"Safe", "none", 0.95⟩),
     (("CLOPIDOGREL", "CYP2C19", "Poor Metabolizer"), ⟨"Ineffective", "high", 0.92⟩),
     (("CLOPIDOGREL", "CYP2C19", "Intermediate Metabolizer"), ⟨"Adjust Dosage", "moderate", 0.85⟩),
     (("CLOPIDOGREL", "CYP2C19", "Rapid Metabolizer"), ⟨"Adjust Dosage", "moderate", 0.80⟩),
     (("CLOPIDOGREL", "CYP2C19", "Ultrarapid Metabolizer"), ⟨"Safe", "none", 0.90⟩),
     (("CLOPIDOGREL", "CYP2C19", "Normal Metabolizer"), ⟨"Safe", "none", 0.95⟩),
     (("WARFARIN", "CYP2C9", "Poor Metabolizer"), ⟨"Toxic", "high", 0.93⟩),
     (("WARFARIN", "CYP2C9", "Intermediate Metabolizer"), ⟨"Adjust Dosage", "moderate", 0.88⟩),
     (("WARFARIN", "CYP2C9", "Normal Metabolizer"), ⟨"Safe", "none", 0.95⟩),
     (("SIMVASTATIN", "SLCO1B1", "Poor Function"), ⟨"Toxic", "high", 0.90⟩),
     (("SIMVASTATIN", "SLCO1B1", "Decreased Function"), ⟨"Adjust Dosage", "moderate", 0.85⟩),
     (("SIMVASTATIN", "SLCO1B1", "Normal Function"), ⟨"Safe", "none", 0.95⟩),
     (("AZATHIOPRINE", "TPMT", "Poor Metabolizer"), ⟨"Toxic", "critical", 0.97⟩),
     (("AZATHIOPRINE", "TPMT", "Intermediate Metabolizer"), ⟨"Adjust Dosage", "moderate", 0.90⟩),
     (("AZATHIOPRINE", "TPMT", "Normal Metabolizer"), ⟨"Safe", "none", 0.95⟩),
     (("FLUOROURACIL", "DPYD", "Poor Metabolizer"), ⟨"Toxic", "critical", 0.96⟩),
     (("FLUOROURACIL", "DPYD", "Intermediate Metabolizer"), ⟨"Adjust Dosage", "high", 0.91⟩),
     (("FLUOROURACIL", "DPYD", "Normal Metabolizer"), ⟨"Safe", "none", 0.95⟩)]

/-- Concrete variant-record maker used by witnesses and counterexamples. -/
def mkVariant (gene star geno : String) : VariantRecord where
  chrom := "22"
  pos := 42522613
  rsid := "rs3892097"
  ref := "G"
  alt := "A"
  qual := 99
  gene := gene
  star_allele := star
  genotype := geno
  function := none

/-! ## Stage 4b: phenoconversion detector
(`pipeline/phenoconversion_detector.py`) -/

/-- The fixed per-gene inhibitor tiers (`CYP_INHIBITORS`). -/
def CYP_INHIBITORS : List (String × List (String × List String)) :=
  [("CYP2D6",
    [("strong", ["fluoxetine", "paroxetine", "bupropion", "quinidine"]),
     ("moderate", ["duloxetine", "terbinafine", "cinacalcet"]),
     ("weak", ["amiodarone", "cimetidine"])]),
   ("CYP2C19",
    [("strong", ["omeprazole", "esomeprazole", "fluvoxamine"]),
     ("moderate", ["fluconazole", "moclobemide"]),
     ("weak", ["cimetidine", "etravirine"])]),
   ("CYP2C9",
    [("strong", ["fluconazole", "amiodarone"]),
     ("moderate", ["miconazole", "metronidazole"]),
     ("weak", ["ibuprofen"])])]

/-- The per-tier phenotype-downgrade table (`PHENOTYPE_DOWNGRADE`). -/
def PHENOTYPE_DOWNGRADE : List (String × List (String × String)) :=
  [("strong", [("URM", "NM"), ("RM", "IM"), ("NM", "IM"), ("IM", "PM"), ("PM", "PM")]),
   ("moderate", [("URM", "RM"), ("RM", "NM"), ("NM", "NM"), ("IM", "IM"), ("PM", "PM")]),
   ("weak", [("URM", "URM"), ("RM", "RM"), ("NM", "NM"), ("IM", "IM"), ("PM", "PM")])]

/-- Abbreviation → full phenotype name (`PHENOTYPE_FULL`). -/
def PHENOTYPE_FULL : List (String × String) :=
  [("PM", "Poor Metabolizer"), ("IM", "Intermediate Metabolizer"),
   ("NM", "Normal Metabolizer"), ("RM", "Rapid Metabolizer"),
   ("URM", "Ultrarapid Metabolizer"), ("Unknown", "Unknown")]

/-- `_STRENGTH_ORDER`; in `detect_phenoconversion` it is only ever applied
to tier names drawn from `CYP_INHIBITORS`, so the off-domain value is
irrelevant. -/
def strengthOrder (s : String) : ℕ :=
  if s = "weak" then 0 else if s = "moderate" then 1 else if s = "strong" then 2 else 0

/-- `_PENALTY`, read with `.get(strength, 0.0)`. -/
def PENALTY : List (String × ℚ) :=
  [("weak", 0.02), ("moderate", 0.05), ("strong", 0.10)]

/-- `_normalize_med_name`: `str(name).strip().lower()`. -/
def normalizeMedName (m : String) : String := pyLower (pyStrip m)

/-- The normalized medication list: entries that are blank after stripping
are discarded. -/
def normalizedMeds (concurrent : List String) : List String :=
  (concurrent.filter fun m => decide (pyStrip m ≠ "")).map normalizeMedName

/-- The `detected_inhibitors` list: per tier (insertion order strong,
moderate, weak), every normalized medication found in that tier's
lower-cased inhibitor set, paired with the tier name. -/
def matchedInhibitors (gene : String) (meds : List String) : List (String × String) :=
  ((List.lookup (pyUpper gene) CYP_INHIBITORS).getD []).flatMap fun si =>
    ((normalizedMeds meds).filter fun med => decide (med ∈ si.2.map pyLower)).map
      fun med => (med, si.1)

/-- The `highest_strength` accumulation loop: replace the current tier
only when a strictly stronger one appears. -/
def highestStrength (l : List (String × String)) : Option String :=
  l.foldl
    (fun acc p =>
      match acc with
      | none => some p.2
      | some h => if strengthOrder h < strengthOrder p.2 then some p.2 else some h)
    none

/-- Result of `detect_phenoconversion` (the `clinical_note` free-text
field, unused by any downstream decision, is not modelled). -/
structure PhenoconversionResult where
  phenoconversion_risk : Bool
  genetic_phenotype : String
  functional_phenotype : String
  functional_phenotype_full : String
  caused_by : List (String × String)
  confidence_penalty : ℚ
deriving DecidableEq, Repr

/-- `detect_phenoconversion`: intersect medications with the gene's
inhibitor tiers, downgrade by the strongest matched tier, and charge the
per-tier penalty; on no match, pass the genetic phenotype through. -/
def detect_phenoconversion (gene geneticAbbrev : String) (concurrentMeds : List String) :
    PhenoconversionResult :=
  let detected := matchedInhibitors gene concurrentMeds
  if detected.isEmpty then
    { phenoconversion_risk := false
      genetic_phenotype := geneticAbbrev
      functional_phenotype := geneticAbbrev
      functional_phenotype_full := (List.lookup geneticAbbrev PHENOTYPE_FULL).getD "Unknown"
      caused_by := []
      confidence_penalty := 0 }
  else
    match highestStrength detected with
    | none =>
      { phenoconversion_risk := false
        genetic_phenotype := geneticAbbrev
        functional_phenotype := geneticAbbrev
        functional_phenotype_full := (List.lookup geneticAbbrev PHENOTYPE_FULL).getD "Unknown"
        caused_by := []
        confidence_penalty := 0 }
    | some highest =>
      let functional :=
        (List.lookup geneticAbbrev ((List.lookup highest PHENOTYPE_DOWNGRADE).getD [])).getD
          geneticAbbrev
      { phenoconversion_risk := true
        genetic_phenotype := geneticAbbrev
        functional_phenotype := functional
        functional_phenotype_full := (List.lookup functional PHENOTYPE_FULL).getD "Unknown"
        caused_by := detected
        confidence_penalty := (List.lookup highest PENALTY).getD 0 }

/-! ## Stage 5: risk engine (`pipeline/risk_engine.py`, lookup part) -/

/-- `SUPPORTED_DRUGS` in `models/constants.py`. -/
def SUPPORTED_DRUGS : List (String × String) :=
  [("CODEINE", "CYP2D6"), ("CLOPIDOGREL", "CYP2C19"), ("WARFARIN", "CYP2C9"),
   ("SIMVASTATIN", "SLCO1B1"), ("AZATHIOPRINE", "TPMT"), ("FLUOROURACIL", "DPYD"),
   ("5-FLUOROURACIL", "DPYD"), ("5-FU", "DPYD")]

/-- `DRUG_ALIASES` in `models/constants.py`. -/
def DRUG_ALIASES : List (String × String) :=
  [("TYLENOL 3", "CODEINE"), ("TYLENOL-3", "CODEINE"),
   ("TYLENOL WITH CODEINE", "CODEINE"), ("CODEINE PHOSPHATE", "CODEINE"),
   ("CODEINE SULFATE", "CODEINE"), ("PLAVIX", "CLOPIDOGREL"),
   ("COUMADIN", "WARFARIN"), ("JANTOVEN", "WARFARIN"), ("ZOCOR", "SIMVASTATIN"),
   ("IMURAN", "AZATHIOPRINE"), ("AZASAN", "AZATHIOPRINE"),
   ("5-FU", "FLUOROURACIL"), ("5-FLUOROURACIL", "FLUOROURACIL"),
   ("ADRUCIL", "FLUOROURACIL"), ("EFUDEX", "FLUOROURACIL"), ("CARAC", "FLUOROURACIL")]

/-- `normalize_drug_name` in `pharmgkb_lookup.py`: strip/upper-case, exact
alias hit, supported-drug hit, then first partial alias match (substring
in either direction), else pass through. -/
def normalize_drug_name (drugName : String) : String :=
  let drugUpper := pyUpper (pyStrip drugName)
  match List.lookup drugUpper DRUG_ALIASES with
  | some std => std
  | none =>
    if (List.lookup drugUpper SUPPORTED_DRUGS).isSome then drugUpper
    else
      match DRUG_ALIASES.find? fun as =>
          containsSeq as.1.data drugUpper.data || containsSeq drugUpper.data as.1.data with
      | some as => as.2
      | none => drugUpper

/-- `RiskAssessment` in `models/schemas.py` (construction argument order
of `assess_risk`). -/
structure RiskAssessment where
  risk_label : String
  confidence_score : ℚ
  severity : String
deriving DecidableEq, Repr

/-- The SLCO1B1 `metabolizer_to_function` relabeling map in `assess_risk`,
read with `.get(phenotype, phenotype)`. -/
def metabolizerToFunction (phenotype : String) : String :=
  (List.lookup phenotype
    [("Normal Metabolizer", "Normal Function"),
     ("Intermediate Metabolizer", "Decreased Function"),
     ("Poor Metabolizer", "Poor Function"),
     ("NM", "Normal Function"), ("IM", "Decreased Function"),
     ("PM", "Poor Function")]).getD phenotype

/-- `assess_risk`: exact risk-table lookup, SLCO1B1 secondary lookup with
the relabeled phenotype, else the Unknown default. -/
def assess_risk (rules : Rules) (drug gene phenotype : String) : RiskAssessment :=
  let normalizedDrug := normalize_drug_name drug
  let hit :=
    match List.lookup (normalizedDrug, gene, phenotype) rules.riskTable with
    | some row => some row
    | none =>
      if gene = "SLCO1B1" then
        List.lookup (normalizedDrug, gene, metabolizerToFunction phenotype) rules.riskTable
      else none
  match hit with
  | some row =>
    { risk_label := row.risk_label
      confidence_score := row.confidence_score
      severity := row.severity }
  | none => { risk_label := "Unknown", confidence_score := 0.50, severity := "low" }

/-- A one-row rule set whose risk table keys the SLCO1B1 row by a
Metabolizer-style label, exercising the direction of the secondary lookup
that `assess_risk` does not implement. -/
def slcoMetabolizerKeyedRules : Rules where
  targetGenes := ["SLCO1B1"]
  defaultDiplotype := "*1/*1"
  cyp2d6ActivityScores := []
  diplotypePhenotypes := []
  riskTable :=
    [(("SIMVASTATIN", "SLCO1B1", "Intermediate Metabolizer"),
      ⟨"Adjust Dosage", "moderate", 0.85⟩)]

/-! ## Rounding and calibration
(`pipeline/confidence_calibrator.py`) -/

/-- Python's `round` to an integer: round half to even (banker's
rounding) on the exact rational value. -/
def roundHalfEven (x : ℚ) : ℤ :=
  let f := ⌊x⌋
  let r := x - (f : ℚ)
  if r < 1 / 2 then f
  else if 1 / 2 < r then f + 1
  else if Even f then f else f + 1

/-- Python `round(x, ndigits)` on the exact rational value. -/
def pyRound (ndigits : ℕ) (x : ℚ) : ℚ :=
  (roundHalfEven (x * 10 ^ ndigits) : ℚ) / 10 ^ ndigits

/-- The default `calibration_map` of `IsotonicCalibrator`, in insertion
order. -/
def defaultCalibrationMap : List ((ℚ × ℚ) × ℚ) :=
  [((0.90, 1.00), 0.95), ((0.80, 0.90), 0.87), ((0.70, 0.80), 0.78),
   ((0.60, 0.70), 0.68), ((0.50, 0.60), 0.57), ((0.40, 0.50), 0.45),
   ((0.00, 0.40), 0.30)]

/-- The bin-scan loop of `IsotonicCalibrator.calibrate`: first bin with
`low ≤ s ≤ high` wins and its representative is rounded to 2 decimals. -/
def calibrateLoop (s : ℚ) : List ((ℚ × ℚ) × ℚ) → Option ℚ
  | [] => none
  | bin :: rest =>
    if bin.1.1 ≤ s ∧ s ≤ bin.1.2 then some (pyRound 2 bin.2) else calibrateLoop s rest

/-- `IsotonicCalibrator.calibrate`: clamp to [0,1], scan the bins, else
pass the clamped score through rounded to 2 decimals. -/
def calibrate (map : List ((ℚ × ℚ) × ℚ)) (rawScore : ℚ) : ℚ :=
  (calibrateLoop (max 0 (min 1 rawScore)) map).getD (pyRound 2 (max 0 (min 1 rawScore)))

/-! ## Confidence scoring (`pipeline/risk_engine.py`, EXP-012 part) -/

/-- The configuration values the confidence code reads out of
`_RULES.confidence_model` and `_RULES.evidence_confidence` with
`.get(key, default)`.  Each field is the resolved rational the code ends
up using; theorems quantify over all values. -/
structure ConfidenceConfig where
  evidenceConfidence : List (String × (ℚ × ℚ))
  phenotypeConfidenceMap : List (String × ℚ)
  vcfQualityWeight : ℚ
  annotationWeight : ℚ
  geneSupportWeight : ℚ
  ruleUnmatched : ℚ
  ruleUnknownLabel : ℚ
  ruleMatched : ℚ
  wEvidence : ℚ
  wGenotype : ℚ
  wPhenotype : ℚ
  wRuleCoverage : ℚ

/-- `_midpoint_confidence_from_evidence`: band midpoint rounded to 4
decimals, unknown levels defaulting to the (0.50, 0.60) band. -/
def midpoint_confidence_from_evidence (cfg : ConfidenceConfig) (level : String) : ℚ :=
  let band := (List.lookup level cfg.evidenceConfidence).getD (0.50, 0.60)
  pyRound 4 ((band.1 + band.2) / 2)

/-- `gene_copy_variant`: "XN" occurs in the upper-cased diplotype (the
second, star-stripped test is redundant but kept from the source). -/
def gene_copy_variant (diplotype : String) : Bool :=
  let token := diplotype.data.map Char.toUpper
  containsSeq ['X', 'N'] token ||
    containsSeq ['X', 'N'] (token.filter fun c => decide (c ≠ '*'))

/-- `_phenotype_confidence`: fixed per-phenotype confidence with an
Unknown default of 0.40, a structural-sanity value of 0.55, a base default
of 0.80, and a gene-duplication decrement floored at 0.72. -/
def phenotype_confidence (cfg : ConfidenceConfig) (phenotype diplotype : String) : ℚ :=
  if phenotype = "Unknown" ∨ phenotype = "" then
    (List.lookup "Unknown" cfg.phenotypeConfidenceMap).getD 0.40
  else if ¬ containsSeq ['/'] diplotype.data ∨ ¬ containsSeq ['*'] diplotype.data then 0.55
  else
    let base := (List.lookup phenotype cfg.phenotypeConfidenceMap).getD 0.80
    if gene_copy_variant diplotype then max 0.72 (base - 0.05) else base

/-- `_rule_coverage_confidence`. -/
def rule_coverage_confidence (cfg : ConfidenceConfig) (riskLabel : String)
    (ruleMatch : Bool) : ℚ :=
  if ¬ ruleMatch then cfg.ruleUnmatched
  else if riskLabel = "Unknown" then cfg.ruleUnknownLabel
  else cfg.ruleMatched

/-- The four sub-scores returned by `calculate_confidence_components`. -/
structure ConfidenceComponents where
  evidence : ℚ
  genotype : ℚ
  phenotype : ℚ
  rule_coverage : ℚ
deriving DecidableEq, Repr

/-- `calculate_confidence_components` (the `detected_variant_count`
parameter is unused by the source and omitted). -/
def calculate_confidence_components (cfg : ConfidenceConfig) (evidenceLevel : String)
    (vcfQuality annotationCompleteness : ℚ) (phenotype diplotype riskLabel : String)
    (ruleMatch : Bool) (geneSupportScore : ℚ) : ConfidenceComponents :=
  let cEvidence := midpoint_confidence_from_evidence cfg evidenceLevel
  let wSum := cfg.vcfQualityWeight + cfg.annotationWeight + cfg.geneSupportWeight
  let denom := if 0 < wSum then wSum else 1
  let cGenotype := max 0 (min 1
    ((vcfQuality / 100 * cfg.vcfQualityWeight
      + annotationCompleteness * cfg.annotationWeight
      + geneSupportScore * cfg.geneSupportWeight) / denom))
  let cPhenotype := phenotype_confidence cfg phenotype diplotype
  let cRule := rule_coverage_confidence cfg riskLabel ruleMatch
  { evidence := pyRound 4 cEvidence
    genotype := pyRound 4 cGenotype
    phenotype := pyRound 4 cPhenotype
    rule_coverage := pyRound 4 cRule }

/-- `calculate_confidence_score_v2`: weighted component average,
renormalized, clamped to [0,1], capped at 0.69 on an "Unknown" risk label,
rounded to 2 decimals. -/
def calculate_confidence_score_v2 (cfg : ConfidenceConfig) (evidenceLevel : String)
    (vcfQuality annotationCompleteness : ℚ) (phenotype diplotype riskLabel : String)
    (ruleMatch : Bool) (geneSupportScore : ℚ) : ℚ :=
  let comp := calculate_confidence_components cfg evidenceLevel vcfQuality
    annotationCompleteness phenotype diplotype riskLabel ruleMatch geneSupportScore
  let wSum := cfg.wEvidence + cfg.wGenotype + cfg.wPhenotype + cfg.wRuleCoverage
  let denom := if 0 < wSum then wSum else 1
  let raw := (cfg.wEvidence * comp.evidence + cfg.wGenotype * comp.genotype
    + cfg.wPhenotype * comp.phenotype + cfg.wRuleCoverage * comp.rule_coverage) / denom
  let rawClamped := max 0 (min 1 raw)
  let rawCapped := if riskLabel = "Unknown" then min rawClamped 0.69 else rawClamped
  pyRound 2 rawCapped

/-- The confidence post-processing of `analyze_single_drug` in `main.py`:
subtract the phenoconversion penalty (floored at 0.0) from the raw score,
then calibrate with the process-wide default calibrator. -/
def analyze_drug_confidence (cfg : ConfidenceConfig) (evidenceLevel : String)
    (vcfQuality annotationCompleteness : ℚ) (phenotype diplotype riskLabel : String)
    (ruleMatch : Bool) (geneSupportScore penalty : ℚ) : ℚ :=
  let raw := calculate_confidence_score_v2 cfg evidenceLevel vcfQuality
    annotationCompleteness phenotype diplotype riskLabel ruleMatch geneSupportScore
  calibrate defaultCalibrationMap (max 0 (raw - penalty))

/-- Modelled from the spec: the confidence-model section of the loaded
rule set (`rules.v1.json` is not part of the embedded sources).  Weights
and band values follow §4.5's defaults and the evidence bands in
`models/constants.py`; per-phenotype confidences other than "Unknown" fall
back to the code's 0.80 default. -/
def defaultConfidenceConfig : ConfidenceConfig where
  evidenceConfidence :=
    [("1A", (0.95, 0.97)), ("1B", (0.88, 0.93)), ("2A", (0.80, 0.87)),
     ("2B", (0.70, 0.79)), ("3", (0.55, 0.69)), ("4", (0.40, 0.54))]
  phenotypeConfidenceMap := [("Unknown", 0.40)]
  vcfQualityWeight := 0.6
  annotationWeight := 0.2
  geneSupportWeight := 0.2
  ruleUnmatched := 0.55
  ruleUnknownLabel := 0.35
  ruleMatched := 0.95
  wEvidence := 0.4
  wGenotype := 0.25
  wPhenotype := 0.2
  wRuleCoverage := 0.15

/-! ## Stage 1: VCF parser (`pipeline/vcf_parser.py`) -/

/-- `TARGET_GENES` in `models/constants.py`. -/
def TARGET_GENES : List String :=
  ["CYP2D6", "CYP2C19", "CYP2C9", "SLCO1B1", "TPMT", "DPYD"]

/-- `RSID_TO_STAR_ALLELE` in `models/constants.py`: rsID → (gene, star
allele, functional annotation). -/
def RSID_TO_STAR_ALLELE : List (String × String × String × String) :=
  [("rs3892097", ("CYP2D6", "*4", "No function")),
   ("rs35742686", ("CYP2D6", "*3", "No function")),
   ("rs5030655", ("CYP2D6", "*6", "No function")),
   ("rs16947", ("CYP2D6", "*2", "Normal function")),
   ("rs1065852", ("CYP2D6", "*10", "Decreased function")),
   ("rs4244285", ("CYP2C19", "*2", "No function")),
   ("rs4986893", ("CYP2C19", "*3", "No function")),
   ("rs12248560", ("CYP2C19", "*17", "Increased function")),
   ("rs28399504", ("CYP2C19", "*4", "No function")),
   ("rs1799853", ("CYP2C9", "*2", "Decreased function")),
   ("rs1057910", ("CYP2C9", "*3", "Decreased function")),
   ("rs28371686", ("CYP2C9", "*5", "Decreased function")),
   ("rs9332131", ("CYP2C9", "*6", "No function")),
   ("rs4149056", ("SLCO1B1", "*5", "Decreased function")),
   ("rs2306283", ("SLCO1B1", "*1B", "Normal function")),
   ("rs1800462", ("TPMT", "*2", "No function")),
   ("rs1800460", ("TPMT", "*3B", "No function")),
   ("rs1142345", ("TPMT", "*3C", "No function")),
   ("rs3918290", ("DPYD", "*2A", "No function")),
   ("rs55886062", ("DPYD", "*13", "No function")),
   ("rs67376798", ("DPYD", "HapB3", "Decreased function")),
   ("rs75017182", ("DPYD", "c.1129-5923C>G", "Decreased function"))]

/-- An INFO dictionary value: a `KEY=VALUE` string or a bare boolean
flag (`True` in the source). -/
inductive InfoVal
  | str (s : String)
  | flag
deriving DecidableEq, Repr

/-- `item.split("=", 1)`: key before the first `=`, value after it. -/
def splitFirstEq (cs : List Char) : List Char × List Char :=
  (cs.takeWhile fun c => decide (c ≠ '='),
   (cs.dropWhile fun c => decide (c ≠ '=')).drop 1)

/-- `parse_info_field`: `;`-separated `KEY=VALUE` pairs plus bare flags,
in input order (a later duplicate key overwrites an earlier one on read,
see `infoGet`). -/
def parse_info_field (info : List Char) : List (String × InfoVal) :=
  if info = ['.'] ∨ info = [] then []
  else
    (splitChar ';' info).map fun item =>
      if containsSeq ['='] item then
        let kv := splitFirstEq item
        ((trimChars kv.1).asString, InfoVal.str (trimChars kv.2).asString)
      else ((trimChars item).asString, InfoVal.flag)

/-- `info.get(key, default)` with Python-dict overwrite semantics: the
last assignment to a key wins. -/
def infoGet (d : List (String × InfoVal)) (key : String) (dflt : InfoVal) : InfoVal :=
  (List.lookup key d.reverse).getD dflt

/-- `parse_format_genotype`: locate the `GT` subfield and normalize
phased separators; every failure mode defaults to `0/1`. -/
def parse_format_genotype (format sample : List Char) : String :=
  if format = [] ∨ sample = [] then "0/1"
  else
    match (splitChar ':' format).findIdx? (fun f => decide (f = ['G', 'T'])) with
    | none => "0/1"
    | some gtIdx =>
      match (splitChar ':' sample)[gtIdx]? with
      | none => "0/1"
      | some genotype => (genotype.map fun c => if c = '|' then '/' else c).asString

/-- The body of `parse_vcf_content`'s per-data-line `try` block, after the
quality gate: INFO extraction, rsID/star-allele inference, target-gene
filter, genotype extraction, record construction.  A bare INFO flag in
`GENE`/`STAR` puts a boolean where the strict `VariantRecord` schema
expects a string, so those lines always end skipped (via the target-gene
test or the schema validation error caught by the `except`).  A bare `RS`
flag matters only when the ID column is empty: then `rsid` becomes the
boolean and the schema rejects the record; with a nonempty ID the boolean
is discarded (`if not rsid and rs_from_info`) and the line proceeds. -/
def finishDataLine (chrom : String) (pos : ℤ) (rsid0 ref alt : String) (qual : ℚ)
    (f7 : List Char) (rest : List (List Char)) : Option VariantRecord :=
  let info := parse_info_field f7
  match infoGet info "GENE" (.str ""), infoGet info "STAR" (.str "") with
  | InfoVal.str gene0, InfoVal.str star0 =>
    let rsid1? : Option String :=
      match infoGet info "RS" (.str rsid0) with
      | InfoVal.str rsF => some (if rsid0 = "" ∧ rsF ≠ "" then rsF else rsid0)
      | InfoVal.flag => if rsid0 = "" then none else some rsid0
    match rsid1? with
    | none => none
    | some rsid1 =>
      let inferred :=
        if rsid1 ≠ "" ∧ (gene0 = "" ∨ star0 = "") then
          List.lookup rsid1 RSID_TO_STAR_ALLELE
        else none
      let gene1 := match inferred with
        | some t => if t.1 ≠ "" ∧ gene0 = "" then t.1 else gene0
        | none => gene0
      let star1 := match inferred with
        | some t => if t.2.1 ≠ "" ∧ star0 = "" then t.2.1 else star0
        | none => star0
      if gene1 ≠ "" ∧ gene1 ∉ TARGET_GENES then none
      else
        let genotype := match rest with
          | fmt :: smp :: _ => parse_format_genotype fmt smp
          | _ => "0/1"
        some
          { chrom := chrom
            pos := pos
            rsid := if rsid1 ≠ "" then rsid1 else "chr" ++ chrom ++ ":" ++ toString pos
            ref := ref
            alt := alt
            qual := qual
            gene := gene1
            star_allele := star1
            genotype := genotype
            function := (List.lookup rsid1 RSID_TO_STAR_ALLELE).map fun t => t.2.2 }
  | _, _ => none

/-- One data line of `parse_vcf_content`: column split, minimum-column
check, position parse (an unparsable position raises and the line is
skipped), quality parse with `.`/non-numeric treated as 0.0, the
minimum-quality gate, then `finishDataLine`.  The numeric-literal parsers
`floatParse`/`intParse` (Python `float`/`int`) are parameters; `none`
models a raised `ValueError`. -/
def processDataLine (floatParse : String → Option ℚ) (intParse : String → Option ℤ)
    (minQual : ℚ) (line : List Char) : Option VariantRecord :=
  let fields := splitChar '\t' line
  if fields.length < 8 then none
  else
    match fields with
    | f0 :: f1 :: f2 :: f3 :: f4 :: f5 :: _f6 :: f7 :: rest =>
      match intParse f1.asString with
      | none => none
      | some pos =>
        let rsid0 := if f2 = ['.'] then "" else f2.asString
        let qual := if f5 = ['.'] then 0 else (floatParse f5.asString).getD 0
        if qual < minQual then none
        else finishDataLine f0.asString pos rsid0 f3.asString f4.asString qual f7 rest
    | _ => none

/-- One iteration of `parse_vcf_content`'s line loop.  The state carries
the header-seen flag (`header_cols is not None`) and the accumulated
records: blanks and `##` metadata are skipped, `#CHROM` arms the parser,
data before the header is ignored, and parsed records are appended in
input order. -/
def parseLineStep (floatParse : String → Option ℚ) (intParse : String → Option ℤ)
    (minQual : ℚ) (st : Bool × List VariantRecord) (rawLine : List Char) :
    Bool × List VariantRecord :=
  let line := trimChars rawLine
  if line = [] then st
  else if ['#', '#'].isPrefixOf line then st
  else if ("#CHROM".data).isPrefixOf line then (true, st.2)
  else if st.1 = false then st
  else
    match processDataLine floatParse intParse minQual line with
    | some v => (st.1, st.2 ++ [v])
    | none => st

/-- `parse_vcf_content`: strip, split into lines, and fold the line loop
over them. -/
def parse_vcf_content (floatParse : String → Option ℚ) (intParse : String → Option ℤ)
    (content : String) (minQual : ℚ) : List VariantRecord :=
  ((splitChar '\n' (trimChars content.data)).foldl
    (parseLineStep floatParse intParse minQual) (false, [])).2

/-- A digit-string parser used to instantiate the numeric-parser
parameters at concrete inputs (Python's `int`/`float` grammar is wider;
the parsed-record invariants hold for every parser). -/
def parseDecimalNat (cs : List Char) : Option ℕ :=
  if cs = [] then none
  else
    cs.foldl
      (fun acc c =>
        match acc with
        | none => none
        | some n => if c.isDigit then some (n * 10 + (c.toNat - '0'.toNat)) else none)
      (some 0)

/-- Decimal instantiation of the quality parser (integral and
`int.frac` forms). -/
def parseSimpleQual (s : String) : Option ℚ :=
  match splitChar '.' s.data with
  | [intPart] => (parseDecimalNat intPart).map fun n => (n : ℚ)
  | [intPart, fracPart] =>
    match parseDecimalNat intPart, parseDecimalNat fracPart with
    | some n, some f => some ((n : ℚ) + (f : ℚ) / 10 ^ fracPart.length)
    | _, _ => none
  | _ => none

/-- Decimal instantiation of the position parser. -/
def parseSimpleInt (s : String) : Option ℤ :=
  (parseDecimalNat s.data).map fun n => (n : ℤ)

/-! ### Order properties of the allele sort key -/

theorem charListLt_irrefl : ∀ l, charListLt l l = false := by
  intro l
  induction l with
  | nil => rfl
  | cons a as ih => simp [charListLt, ih]

theorem charListLt_asymm : ∀ a b, charListLt a b = true → charListLt b a = false := by
  intro a
  induction a with
  | nil =>
    intro b _
    cases b with
    | nil => rfl
    | cons y ys => rfl
  | cons x xs ih =>
    intro b h
    cases b with
    | nil => exact absurd h (by simp [charListLt])
    | cons y ys =>
      simp only [charListLt] at h ⊢
      rcases lt_trichotomy x.toNat y.toNat with hlt | heq | hgt
      · simp [hlt, not_lt.mpr (le_of_lt hlt), ne_of_gt hlt]
      · simp only [heq, lt_irrefl, if_false] at h ⊢
        exact ih ys h
      · simp [hgt, not_lt.mpr (le_of_lt hgt)] at h

theorem charListLt_total : ∀ a b, a ≠ b → charListLt a b = true ∨ charListLt b a = true := by
  intro a
  induction a with
  | nil =>
    intro b hne
    cases b with
    | nil => exact absurd rfl hne
    | cons y ys => exact Or.inl rfl
  | cons x xs ih =>
    intro b hne
    cases b with
    | nil => exact Or.inr rfl
    | cons y ys =>
      simp only [charListLt]
      rcases lt_trichotomy x.toNat y.toNat with hlt | heq | hgt
      · left
        simp [hlt]
      · have hxy : x = y := Char.eq_of_val_eq (UInt32.ext heq)
        subst hxy
        have htl : xs ≠ ys := fun h => hne (by rw [h])
        rcases ih ys htl with h | h
        · left
          simp [h]
        · right
          simp [h]
      · right
        simp [hgt, not_lt.mpr (le_of_lt hgt)]

theorem keyLt_asymm (p q : List Char × List Char) (h : keyLt p q = true) :
    keyLt q p = false := by
  simp only [keyLt, Bool.or_eq_true, Bool.and_eq_true, decide_eq_true_eq] at h
  rcases h with h | ⟨heq, h⟩
  · have h1 : charListLt q.1 p.1 = false := charListLt_asymm _ _ h
    have h2 : q.1 ≠ p.1 := by
      intro he
      rw [he] at h
      exact absurd h (by simp [charListLt_irrefl])
    simp [keyLt, h1, h2]
  · have h1 : charListLt q.1 p.1 = false := by rw [← heq]; exact charListLt_irrefl _
    have h2 : charListLt q.2 p.2 = false := charListLt_asymm _ _ h
    simp [keyLt, h1, h2]

theorem keyLt_total (p q : List Char × List Char) (hne : p.2 ≠ q.2) :
    keyLt p q = true ∨ keyLt q p = true := by
  by_cases h1 : p.1 = q.1
  · rcases charListLt_total p.2 q.2 hne with h | h
    · left
      simp [keyLt, h1, h]
    · right
      simp [keyLt, h1.symm, h]
  · rcases charListLt_total p.1 q.1 h1 with h | h
    · left
      simp [keyLt, h]
    · right
      simp [keyLt, h]

theorem sortTwo_comm (a b : String) : sortTwo a b = sortTwo b a := by
  by_cases hab : a = b
  · rw [hab]
  · have hdata : (alleleKey a).2 ≠ (alleleKey b).2 := by
      simpa [alleleKey] using fun h => hab (String.ext h)
    unfold sortTwo
    rcases keyLt_total _ _ hdata with h | h
    · have h' : keyLt (alleleKey b) (alleleKey a) = false := keyLt_asymm _ _ h
      simp [h, h']
    · have h' : keyLt (alleleKey a) (alleleKey b) = false := keyLt_asymm _ _ h
      simp [h, h']

/-! ### Permutation behavior of the diplotype resolver -/

theorem buildDiplotype_perm (rules : Rules) {sa sa' : List String}
    (h : sa.Perm sa') (hlen : sa.length ≤ 2) :
    buildDiplotype rules sa = buildDiplotype rules sa' := by
  match sa, hlen with
  | [], _ =>
    have : sa' = [] := h.symm.eq_nil
    rw [this]
  | [a], _ =>
    have : [a] = sa' := List.singleton_perm.mp h
    rw [← this]
  | a :: b :: [], _ =>
    have hlen2 : sa'.length = 2 := by simpa using h.length_eq.symm
    match sa', hlen2 with
    | c :: d :: [], _ =>
      have hmem : a ∈ [c, d] := h.mem_iff.mp (by simp)
      rcases (by simpa using hmem : a = c ∨ a = d) with hac | had
      · have hb : b = d := by
          rw [hac] at h
          simpa using List.singleton_perm.mp h.cons_inv
        rw [hac, hb]
      · have hb : b = c := by
          rw [had] at h
          have hswap : List.Perm [c, d] [d, c] := List.Perm.swap d c []
          simpa using List.singleton_perm.mp (h.trans hswap).cons_inv
        rw [had, hb]
        simp [buildDiplotype, sortTwo_comm d c]

theorem diplotypeForGene_perm (rules : Rules) (gene : String)
    {v1 v2 : List VariantRecord} (hperm : v1.Perm v2)
    (hcount : (starAlleles (geneVariants gene v1)).length ≤ 2) :
    diplotypeForGene rules gene v1 = diplotypeForGene rules gene v2 := by
  have hgv : (geneVariants gene v1).Perm (geneVariants gene v2) := hperm.filter _
  have hsa : (starAlleles (geneVariants gene v1)).Perm (starAlleles (geneVariants gene v2)) :=
    hgv.flatMap_right _
  unfold diplotypeForGene
  by_cases hE : (geneVariants gene v1).isEmpty
  · have h1 : geneVariants gene v1 = [] := by simpa using hE
    have h2 : geneVariants gene v2 = [] := (h1 ▸ hgv).symm.eq_nil
    simp [h1, h2]
  · have h2 : ¬ (geneVariants gene v2).isEmpty := by
      intro hE2
      have h2' : geneVariants gene v2 = [] := by simpa using hE2
      exact hE (by simpa using (h2' ▸ hgv).eq_nil)
    simp only [hE, h2, if_false]
    exact buildDiplotype_perm rules hsa hcount

/-! ### Claim C1 -/

/-- Claim C1, amended: `extract_diplotypes` is invariant under permutation
of the input variant list — and `call_phenotype` therefore yields the same
phenotype for every gene — provided at most two star alleles contribute
for each target gene.  (With three or more contributing alleles the code
truncates to the first two in input order before sorting, so permutations
can change the result; see the counterexample.) -/
theorem extract_diplotypes_perm_invariant (rules : Rules)
    (v1 v2 : List VariantRecord) (hperm : v1.Perm v2)
    (hcount : ∀ gene ∈ rules.targetGenes,
      (starAlleles (geneVariants gene v1)).length ≤ 2) :
    extract_diplotypes rules v1 = extract_diplotypes rules v2 ∧
    get_all_phenotypes rules (extract_diplotypes rules v1)
      = get_all_phenotypes rules (extract_diplotypes rules v2) := by
  have hmain : extract_diplotypes rules v1 = extract_diplotypes rules v2 := by
    unfold extract_diplotypes
    refine List.map_congr_left ?_
    intro gene hg
    rw [diplotypeForGene_perm rules gene hperm (hcount gene hg)]
  exact ⟨hmain, by rw [hmain]⟩

/-- Witness for the amended claim C1 at a concrete two-allele input. -/
theorem extract_diplotypes_perm_invariant_witness :
    extract_diplotypes defaultRules
        [mkVariant "CYP2D6" "*4" "0/1", mkVariant "CYP2D6" "*10" "0/1"]
      = extract_diplotypes defaultRules
        [mkVariant "CYP2D6" "*10" "0/1", mkVariant "CYP2D6" "*4" "0/1"] ∧
    get_all_phenotypes defaultRules (extract_diplotypes defaultRules
        [mkVariant "CYP2D6" "*4" "0/1", mkVariant "CYP2D6" "*10" "0/1"])
      = get_all_phenotypes defaultRules (extract_diplotypes defaultRules
        [mkVariant "CYP2D6" "*10" "0/1", mkVariant "CYP2D6" "*4" "0/1"]) :=
  extract_diplotypes_perm_invariant defaultRules _ _ (by decide) (by decide)

/-- Claim C1 is false as stated: with three heterozygous CYP2D6 variants
(`*4`, `*10`, `*17`) the two input orders below are permutations of each
other, yet `extract_diplotypes` produces different diplotype maps
(`*10/*4` versus `*10/*17` for CYP2D6). -/
theorem extract_diplotypes_not_perm_invariant :
    ([mkVariant "CYP2D6" "*4" "0/1", mkVariant "CYP2D6" "*10" "0/1",
       mkVariant "CYP2D6" "*17" "0/1"].Perm
      [mkVariant "CYP2D6" "*17" "0/1", mkVariant "CYP2D6" "*10" "0/1",
       mkVariant "CYP2D6" "*4" "0/1"]) ∧
    extract_diplotypes defaultRules
        [mkVariant "CYP2D6" "*4" "0/1", mkVariant "CYP2D6" "*10" "0/1",
         mkVariant "CYP2D6" "*17" "0/1"]
      ≠ extract_diplotypes defaultRules
        [mkVariant "CYP2D6" "*17" "0/1", mkVariant "CYP2D6" "*10" "0/1",
         mkVariant "CYP2D6" "*4" "0/1"] := by
  constructor
  · decide
  · decide

/-! ### Claim C3 -/

/-- Claim C3, amended: with two or more contributing star alleles the
resolver takes the first two and orders them by the key obtained from the
allele string by deleting `*` and substituting `99` for `x`, compared as a
Python string (lexicographically by code point, so `*10` ranks below
`*4`), with the full allele string as final tie-break; the key-lower
allele is placed first.  (The claim's "numeric magnitude" ordering does
not hold; see the counterexample.) -/
theorem diplotype_sorted_by_string_key (rules : Rules) (gene : String)
    (variants : List VariantRecord) (a b : String) (rest : List String)
    (hsa : starAlleles (geneVariants gene variants) = a :: b :: rest) :
    diplotypeForGene rules gene variants
      = (sortTwo a b).1 ++ "/" ++ (sortTwo a b).2 ∧
    keyLt (alleleKey (sortTwo a b).2) (alleleKey (sortTwo a b).1) = false := by
  have hne : (geneVariants gene variants).isEmpty = false := by
    rcases h0 : geneVariants gene variants with _ | ⟨v, vs⟩
    · rw [h0] at hsa
      simp [starAlleles] at hsa
    · rfl
  constructor
  · unfold diplotypeForGene
    simp only [hne, Bool.false_eq_true, if_false, hsa]
    rfl
  · unfold sortTwo
    by_cases h : keyLt (alleleKey b) (alleleKey a) = true
    · simp only [h, if_true]
      exact keyLt_asymm _ _ h
    · simp only [h, if_false]
      simpa using h

/-- Witness for the amended claim C3: for input order `*4`, `*10` the
resolver emits `*10/*4`, the key-sorted order. -/
theorem diplotype_sorted_by_string_key_witness :
    (diplotypeForGene defaultRules "CYP2D6"
        [mkVariant "CYP2D6" "*4" "0/1", mkVariant "CYP2D6" "*10" "0/1"]
      = (sortTwo "*4" "*10").1 ++ "/" ++ (sortTwo "*4" "*10").2 ∧
    keyLt (alleleKey (sortTwo "*4" "*10").2) (alleleKey (sortTwo "*4" "*10").1) = false) ∧
    (sortTwo "*4" "*10").1 ++ "/" ++ (sortTwo "*4" "*10").2 = "*10/*4" :=
  ⟨diplotype_sorted_by_string_key defaultRules "CYP2D6" _ "*4" "*10" [] (by decide),
   by decide⟩

/-- Claim C3 is false as stated: the sort key compares strings, not
numeric magnitudes, so `*4` and `*10` produce `*10/*4` (the claim's
numeric order would place `*4` first), and the `x → 99` sentinel likewise
fails to sort the multiplication allele `*1x2` after `*4`. -/
theorem diplotype_sort_not_numeric :
    (diplotypeForGene defaultRules "CYP2D6"
        [mkVariant "CYP2D6" "*4" "0/1", mkVariant "CYP2D6" "*10" "0/1"] = "*10/*4" ∧
      "*10/*4" ≠ "*4/*10") ∧
    (diplotypeForGene defaultRules "CYP2D6"
        [mkVariant "CYP2D6" "*1x2" "0/1", mkVariant "CYP2D6" "*4" "0/1"] = "*1x2/*4" ∧
      "*1x2/*4" ≠ "*4/*1x2") := by
  constructor
  · constructor
    · decide
    · decide
  · constructor
    · decide
    · decide

/-! ### Claims C4 and C10 -/

/-- The `highest_strength` loop, started from an already-seen tier,
returns a tier that (a) is the start tier or occurs in the remaining list,
(b) is at least as strong as the start tier, and (c) is at least as strong
as every tier in the remaining list. -/
theorem highestStrength_foldl_spec (l : List (String × String)) :
    ∀ h0 : String, ∃ hr,
      l.foldl
        (fun acc p =>
          match acc with
          | none => some p.2
          | some h => if strengthOrder h < strengthOrder p.2 then some p.2 else some h)
        (some h0) = some hr ∧
      (hr = h0 ∨ hr ∈ l.map Prod.snd) ∧
      strengthOrder h0 ≤ strengthOrder hr ∧
      ∀ p ∈ l, strengthOrder p.2 ≤ strengthOrder hr := by
  induction l with
  | nil =>
    intro h0
    exact ⟨h0, rfl, Or.inl rfl, le_refl _, by simp⟩
  | cons q t ih =>
    intro h0
    by_cases hlt : strengthOrder h0 < strengthOrder q.2
    · obtain ⟨hr, heq, hmem, hle, hall⟩ := ih q.2
      refine ⟨hr, ?_, ?_, ?_, ?_⟩
      · simpa [hlt] using heq
      · rcases hmem with h | h
        · exact Or.inr (by simp [h])
        · exact Or.inr (by simp [h])
      · exact le_trans (le_of_lt hlt) hle
      · intro p hp
        rcases List.mem_cons.mp hp with rfl | hp
        · exact hle
        · exact hall p hp
    · obtain ⟨hr, heq, hmem, hle, hall⟩ := ih h0
      refine ⟨hr, ?_, ?_, hle, ?_⟩
      · simpa [hlt] using heq
      · rcases hmem with h | h
        · exact Or.inl h
        · exact Or.inr (by simp [h])
      · intro p hp
        rcases List.mem_cons.mp hp with rfl | hp
        · exact le_trans (not_lt.mp hlt) hle
        · exact hall p hp

/-- On a nonempty detected list, `highest_strength` is a matched tier that
dominates all matched tiers. -/
theorem highestStrength_spec (q : String × String) (t : List (String × String)) :
    ∃ hr, highestStrength (q :: t) = some hr ∧
      hr ∈ (q :: t).map Prod.snd ∧
      ∀ p ∈ q :: t, strengthOrder p.2 ≤ strengthOrder hr := by
  obtain ⟨hr, heq, hmem, hle, hall⟩ := highestStrength_foldl_spec t q.2
  refine ⟨hr, ?_, ?_, ?_⟩
  · simpa [highestStrength] using heq
  · rcases hmem with h | h
    · simp [h]
    · simp [h]
  · intro p hp
    rcases List.mem_cons.mp hp with rfl | hp
    · exact hle
    · exact hall p hp

/-- Claim C4: if at least one normalized medication matches an inhibitor
tier for the gene, `detect_phenoconversion` flags the risk, applies the
downgrade table of the strongest matched tier (strong > moderate > weak)
to obtain the functional phenotype, and returns that tier's fixed penalty
(weak 0.02, moderate 0.05, strong 0.10); with no match it returns risk
`false`, zero penalty, and the genetic phenotype unchanged. -/
theorem detect_phenoconversion_spec (gene geneticAbbrev : String) (meds : List String) :
    ((List.lookup "weak" PENALTY).getD 0 = 0.02 ∧
      (List.lookup "moderate" PENALTY).getD 0 = 0.05 ∧
      (List.lookup "strong" PENALTY).getD 0 = 0.10) ∧
    (matchedInhibitors gene meds = [] →
      (detect_phenoconversion gene geneticAbbrev meds).phenoconversion_risk = false ∧
      (detect_phenoconversion gene geneticAbbrev meds).confidence_penalty = 0 ∧
      (detect_phenoconversion gene geneticAbbrev meds).functional_phenotype = geneticAbbrev) ∧
    (matchedInhibitors gene meds ≠ [] →
      ∃ tier, tier ∈ (matchedInhibitors gene meds).map Prod.snd ∧
        (∀ p ∈ matchedInhibitors gene meds, strengthOrder p.2 ≤ strengthOrder tier) ∧
        (detect_phenoconversion gene geneticAbbrev meds).phenoconversion_risk = true ∧
        (detect_phenoconversion gene geneticAbbrev meds).confidence_penalty
          = (List.lookup tier PENALTY).getD 0 ∧
        (detect_phenoconversion gene geneticAbbrev meds).functional_phenotype
          = (List.lookup geneticAbbrev
              ((List.lookup tier PHENOTYPE_DOWNGRADE).getD [])).getD geneticAbbrev) := by
  refine ⟨⟨rfl, rfl, rfl⟩, ?_, ?_⟩
  · intro hempty
    simp [detect_phenoconversion, hempty]
  · intro hne
    rcases hd : matchedInhibitors gene meds with _ | ⟨q, t⟩
    · exact absurd hd hne
    · obtain ⟨hr, heq, hmem, hall⟩ := highestStrength_spec q t
      refine ⟨hr, hmem, hall, ?_⟩
      simp [detect_phenoconversion, hd, heq]

/-- Witness for claim C4: CYP2D6 with medications "Fluoxetine " (strong,
after normalization) and "cimetidine" (weak) — the strong tier wins. -/
theorem detect_phenoconversion_spec_witness :
    ∃ tier,
      tier ∈ (matchedInhibitors "CYP2D6" ["Fluoxetine ", "cimetidine"]).map Prod.snd ∧
      (∀ p ∈ matchedInhibitors "CYP2D6" ["Fluoxetine ", "cimetidine"],
        strengthOrder p.2 ≤ strengthOrder tier) ∧
      (detect_phenoconversion "CYP2D6" "NM" ["Fluoxetine ", "cimetidine"]).phenoconversion_risk
        = true ∧
      (detect_phenoconversion "CYP2D6" "NM" ["Fluoxetine ", "cimetidine"]).confidence_penalty
        = (List.lookup tier PENALTY).getD 0 ∧
      (detect_phenoconversion "CYP2D6" "NM" ["Fluoxetine ", "cimetidine"]).functional_phenotype
        = (List.lookup "NM" ((List.lookup tier PHENOTYPE_DOWNGRADE).getD [])).getD "NM" :=
  (detect_phenoconversion_spec "CYP2D6" "NM" ["Fluoxetine ", "cimetidine"]).2.2 (by decide)

/-- Claim C10: for every gene whose upper-cased symbol is not CYP2D6,
CYP2C19 or CYP2C9 (in particular SLCO1B1, TPMT and DPYD),
`detect_phenoconversion` never flags a risk, charges no penalty, and
returns the genetic phenotype as the functional phenotype, for every
medication list and phenotype. -/
theorem detect_phenoconversion_other_genes (gene geneticAbbrev : String)
    (meds : List String)
    (hg : pyUpper gene ∉ ["CYP2D6", "CYP2C19", "CYP2C9"]) :
    (detect_phenoconversion gene geneticAbbrev meds).phenoconversion_risk = false ∧
    (detect_phenoconversion gene geneticAbbrev meds).confidence_penalty = 0 ∧
    (detect_phenoconversion gene geneticAbbrev meds).functional_phenotype = geneticAbbrev := by
  obtain ⟨h1, h2, h3⟩ : pyUpper gene ≠ "CYP2D6" ∧ pyUpper gene ≠ "CYP2C19" ∧
      pyUpper gene ≠ "CYP2C9" := by simpa using hg
  have e1 : (pyUpper gene == "CYP2D6") = false := beq_eq_false_iff_ne.mpr h1
  have e2 : (pyUpper gene == "CYP2C19") = false := beq_eq_false_iff_ne.mpr h2
  have e3 : (pyUpper gene == "CYP2C9") = false := beq_eq_false_iff_ne.mpr h3
  have hempty : matchedInhibitors gene meds = [] := by
    simp [matchedInhibitors, CYP_INHIBITORS, List.lookup, e1, e2, e3]
  simp [detect_phenoconversion, hempty]

/-- Witness for claim C10: SLCO1B1 with a CYP2D6 strong inhibitor on
board is untouched. -/
theorem detect_phenoconversion_other_genes_witness :
    (detect_phenoconversion "SLCO1B1" "NM" ["fluoxetine"]).phenoconversion_risk = false ∧
    (detect_phenoconversion "SLCO1B1" "NM" ["fluoxetine"]).confidence_penalty = 0 ∧
    (detect_phenoconversion "SLCO1B1" "NM" ["fluoxetine"]).functional_phenotype = "NM" :=
  detect_phenoconversion_other_genes "SLCO1B1" "NM" ["fluoxetine"] (by decide)

/-! ### Claims C5 and C6 -/

/-- Claim C5, amended: for every (drug, gene, phenotype) triple that
matches no risk-table row under either naming form, `assess_risk` returns
risk label "Unknown", severity "low" (not "unknown"), and confidence score
0.50; being a total function it raises no error. -/
theorem assess_risk_no_match (rules : Rules) (drug gene phenotype : String)
    (h1 : List.lookup (normalize_drug_name drug, gene, phenotype) rules.riskTable = none)
    (h2 : gene = "SLCO1B1" →
      List.lookup (normalize_drug_name drug, gene, metabolizerToFunction phenotype)
        rules.riskTable = none) :
    assess_risk rules drug gene phenotype
      = { risk_label := "Unknown", confidence_score := 0.50, severity := "low" } := by
  by_cases hg : gene = "SLCO1B1"
  · subst hg
    simp [assess_risk, h1, h2 rfl]
  · simp only [assess_risk, h1, hg, if_false]

/-- Witness for the amended claim C5: the repo's own no-rule triple
(WARFARIN, CYP2C9, Ultrarapid Metabolizer). -/
theorem assess_risk_no_match_witness :
    assess_risk defaultRules "WARFARIN" "CYP2C9" "Ultrarapid Metabolizer"
      = { risk_label := "Unknown", confidence_score := 0.50, severity := "low" } :=
  assess_risk_no_match defaultRules "WARFARIN" "CYP2C9" "Ultrarapid Metabolizer"
    (by decide) (by decide)

/-- Claim C5 is false as stated on the severity field: at the unmatched
triple (WARFARIN, CYP2C9, Ultrarapid Metabolizer) the code returns
severity "low", not "unknown" (the repo's `test_core_pipeline.py` asserts
exactly this). -/
theorem assess_risk_no_match_severity_not_unknown :
    (assess_risk defaultRules "WARFARIN" "CYP2C9" "Ultrarapid Metabolizer").severity = "low" ∧
    (assess_risk defaultRules "WARFARIN" "CYP2C9" "Ultrarapid Metabolizer").severity
      ≠ "unknown" := by
  constructor
  · decide
  · decide

/-- Claim C6, amended: the SLCO1B1 secondary lookup translates
Metabolizer-style labels to Function-style labels only — a phenotype that
is (or abbreviates) a Metabolizer label also finds the row keyed by the
corresponding Function label when the exact lookup misses; the reverse
translation (Function-style phenotype finding a Metabolizer-keyed row) is
not performed. -/
theorem assess_risk_slco1b1_fallback (rules : Rules) (drug phenotype : String)
    (row : RiskRow)
    (hmiss : List.lookup (normalize_drug_name drug, "SLCO1B1", phenotype)
      rules.riskTable = none)
    (hhit : List.lookup (normalize_drug_name drug, "SLCO1B1", metabolizerToFunction phenotype)
      rules.riskTable = some row) :
    assess_risk rules drug "SLCO1B1" phenotype
      = { risk_label := row.risk_label
          confidence_score := row.confidence_score
          severity := row.severity } := by
  simp only [assess_risk, hmiss, if_true, hhit]

/-- Witness for the amended claim C6: a Metabolizer-style phenotype
("Intermediate Metabolizer") reaches the Function-keyed SIMVASTATIN row. -/
theorem assess_risk_slco1b1_fallback_witness :
    assess_risk defaultRules "SIMVASTATIN" "SLCO1B1" "Intermediate Metabolizer"
      = { risk_label := "Adjust Dosage", confidence_score := 0.85, severity := "moderate" } :=
  assess_risk_slco1b1_fallback defaultRules "SIMVASTATIN" "Intermediate Metabolizer"
    ⟨"Adjust Dosage", "moderate", 0.85⟩ (by decide) rfl

/-- Claim C6 is false as stated in the "vice versa" direction: with a risk
table keyed by the Metabolizer-style label, the Function-style phenotype
"Decreased Function" does not find the row — `assess_risk` falls through
to the Unknown default even though the corresponding Metabolizer-keyed
row exists. -/
theorem assess_risk_slco1b1_no_reverse_fallback :
    assess_risk slcoMetabolizerKeyedRules "SIMVASTATIN" "SLCO1B1" "Decreased Function"
      = { risk_label := "Unknown", confidence_score := 0.50, severity := "low" } ∧
    List.lookup ("SIMVASTATIN", "SLCO1B1", "Intermediate Metabolizer")
      slcoMetabolizerKeyedRules.riskTable ≠ none := by
  constructor
  · rfl
  · decide

/-! ### Claim C7 -/

/-- Claim C7: for CYP2D6, when no direct diplotype-table entry matches
(in either allele order), the phenotype is the activity-score
classification of the total score (alleles absent from the score table
count 1.0): total = 0 → Poor, 0 < total ≤ 1.0 → Intermediate,
1.0 < total ≤ 2.25 → Normal, total > 2.25 → Ultrarapid. -/
theorem call_phenotype_cyp2d6_activity (rules : Rules) (diplotype : String)
    (hin : "CYP2D6" ∈ rules.targetGenes)
    (hmiss : directDiplotypeLookup rules "CYP2D6" (parse_diplotype_string diplotype) = none) :
    (cyp2d6TotalActivity rules diplotype = 0 →
      call_phenotype rules "CYP2D6" diplotype = "Poor Metabolizer") ∧
    (0 < cyp2d6TotalActivity rules diplotype → cyp2d6TotalActivity rules diplotype ≤ 1 →
      call_phenotype rules "CYP2D6" diplotype = "Intermediate Metabolizer") ∧
    (1 < cyp2d6TotalActivity rules diplotype → cyp2d6TotalActivity rules diplotype ≤ 2.25 →
      call_phenotype rules "CYP2D6" diplotype = "Normal Metabolizer") ∧
    (2.25 < cyp2d6TotalActivity rules diplotype →
      call_phenotype rules "CYP2D6" diplotype = "Ultrarapid Metabolizer") := by
  have hcall : call_phenotype rules "CYP2D6" diplotype
      = call_cyp2d6_phenotype_by_activity rules
        (parse_diplotype_string diplotype).1 (parse_diplotype_string diplotype).2 := by
    simp [call_phenotype, hin, hmiss]
  have htot : cyp2d6TotalActivity rules diplotype
      = (List.lookup (parse_diplotype_string diplotype).1 rules.cyp2d6ActivityScores).getD 1
        + (List.lookup (parse_diplotype_string diplotype).2 rules.cyp2d6ActivityScores).getD 1 :=
    rfl
  rw [hcall]
  unfold call_cyp2d6_phenotype_by_activity
  simp only []
  rw [← htot]
  refine ⟨fun h0 => ?_, fun hpos hle => ?_, fun hgt hle => ?_, fun hgt => ?_⟩
  · rw [if_pos h0]
  · rw [if_neg (by linarith), if_pos hle]
  · rw [if_neg (by linarith), if_neg (by linarith), if_pos hle]
  · rw [if_neg (by linarith), if_neg (by linarith), if_neg (by linarith)]

/-- Witness for claim C7: the diplotype `*4/*41` has no direct CYP2D6
table entry, so the activity-score classifier decides. -/
theorem call_phenotype_cyp2d6_activity_witness :
    (cyp2d6TotalActivity defaultRules "*4/*41" = 0 →
      call_phenotype defaultRules "CYP2D6" "*4/*41" = "Poor Metabolizer") ∧
    (0 < cyp2d6TotalActivity defaultRules "*4/*41" →
      cyp2d6TotalActivity defaultRules "*4/*41" ≤ 1 →
      call_phenotype defaultRules "CYP2D6" "*4/*41" = "Intermediate Metabolizer") ∧
    (1 < cyp2d6TotalActivity defaultRules "*4/*41" →
      cyp2d6TotalActivity defaultRules "*4/*41" ≤ 2.25 →
      call_phenotype defaultRules "CYP2D6" "*4/*41" = "Normal Metabolizer") ∧
    (2.25 < cyp2d6TotalActivity defaultRules "*4/*41" →
      call_phenotype defaultRules "CYP2D6" "*4/*41" = "Ultrarapid Metabolizer") :=
  call_phenotype_cyp2d6_activity defaultRules "*4/*41" (by decide) (by decide)

/-! ### Rounding lemmas -/

theorem roundHalfEven_intCast (n : ℤ) : roundHalfEven (n : ℚ) = n := by
  unfold roundHalfEven
  norm_num

theorem pyRound_two_eq (x : ℚ) (n : ℤ) (h : x * 100 = (n : ℚ)) :
    pyRound 2 x = (n : ℚ) / 100 := by
  unfold pyRound
  rw [show ((10 : ℚ) ^ (2 : ℕ)) = 100 by norm_num, h, roundHalfEven_intCast]

theorem roundHalfEven_le_int (z : ℚ) (n : ℤ) (h : z ≤ (n : ℚ)) :
    roundHalfEven z ≤ n := by
  unfold roundHalfEven
  have hf : ⌊z⌋ ≤ n := by
    have := Int.floor_le_floor h
    simpa using this
  have hfz : (⌊z⌋ : ℚ) ≤ z := Int.floor_le z
  simp only []
  split_ifs with h1 h2 h3
  · exact hf
  · have hlt : (⌊z⌋ : ℚ) < (n : ℚ) := by linarith
    have : ⌊z⌋ < n := by exact_mod_cast hlt
    omega
  · exact hf
  · have hr : z - (⌊z⌋ : ℚ) = 1 / 2 := le_antisymm (not_lt.mp h2) (not_lt.mp h1)
    have hlt : (⌊z⌋ : ℚ) < (n : ℚ) := by linarith
    have : ⌊z⌋ < n := by exact_mod_cast hlt
    omega

theorem roundHalfEven_nonneg (z : ℚ) (h : 0 ≤ z) : 0 ≤ roundHalfEven z := by
  unfold roundHalfEven
  have hf : 0 ≤ ⌊z⌋ := Int.floor_nonneg.mpr h
  simp only []
  split_ifs <;> omega

theorem pyRound_two_le (x : ℚ) (n : ℤ) (h : x * 100 ≤ (n : ℚ)) :
    pyRound 2 x ≤ (n : ℚ) / 100 := by
  unfold pyRound
  rw [show ((10 : ℚ) ^ (2 : ℕ)) = 100 by norm_num]
  have hle : (roundHalfEven (x * 100) : ℚ) ≤ (n : ℚ) := by
    exact_mod_cast roundHalfEven_le_int (x * 100) n h
  exact (div_le_div_iff_of_pos_right (by norm_num)).mpr hle

theorem pyRound_two_nonneg (x : ℚ) (h : 0 ≤ x) : 0 ≤ pyRound 2 x := by
  unfold pyRound
  have h0 : (0 : ℚ) ≤ (roundHalfEven (x * 100) : ℚ) := by
    exact_mod_cast roundHalfEven_nonneg (x * 100) (by positivity)
  positivity

/-! ### Calibration evaluation lemmas -/

theorem calibrate_rep95 : calibrate defaultCalibrationMap (0.95 : ℚ) = 0.95 := by
  have hp : pyRound 2 (0.95 : ℚ) = 0.95 := by
    rw [pyRound_two_eq (0.95 : ℚ) 95 (by norm_num)]
    norm_num
  unfold calibrate defaultCalibrationMap
  rw [show max 0 (min 1 (0.95 : ℚ)) = 0.95 by norm_num [min_def, max_def]]
  simp only [calibrateLoop]
  rw [if_pos (by norm_num)]
  simp [hp]

theorem calibrate_rep87 : calibrate defaultCalibrationMap (0.87 : ℚ) = 0.87 := by
  have hp : pyRound 2 (0.87 : ℚ) = 0.87 := by
    rw [pyRound_two_eq (0.87 : ℚ) 87 (by norm_num)]
    norm_num
  unfold calibrate defaultCalibrationMap
  rw [show max 0 (min 1 (0.87 : ℚ)) = 0.87 by norm_num [min_def, max_def]]
  simp only [calibrateLoop]
  rw [if_neg (by norm_num), if_pos (by norm_num)]
  simp [hp]

theorem calibrate_rep78 : calibrate defaultCalibrationMap (0.78 : ℚ) = 0.78 := by
  have hp : pyRound 2 (0.78 : ℚ) = 0.78 := by
    rw [pyRound_two_eq (0.78 : ℚ) 78 (by norm_num)]
    norm_num
  unfold calibrate defaultCalibrationMap
  rw [show max 0 (min 1 (0.78 : ℚ)) = 0.78 by norm_num [min_def, max_def]]
  simp only [calibrateLoop]
  rw [if_neg (by norm_num), if_neg (by norm_num), if_pos (by norm_num)]
  simp [hp]

theorem calibrate_rep68 : calibrate defaultCalibrationMap (0.68 : ℚ) = 0.68 := by
  have hp : pyRound 2 (0.68 : ℚ) = 0.68 := by
    rw [pyRound_two_eq (0.68 : ℚ) 68 (by norm_num)]
    norm_num
  unfold calibrate defaultCalibrationMap
  rw [show max 0 (min 1 (0.68 : ℚ)) = 0.68 by norm_num [min_def, max_def]]
  simp only [calibrateLoop]
  rw [if_neg (by norm_num), if_neg (by norm_num), if_neg (by norm_num),
    if_pos (by norm_num)]
  simp [hp]

theorem calibrate_rep57 : calibrate defaultCalibrationMap (0.57 : ℚ) = 0.57 := by
  have hp : pyRound 2 (0.57 : ℚ) = 0.57 := by
    rw [pyRound_two_eq (0.57 : ℚ) 57 (by norm_num)]
    norm_num
  unfold calibrate defaultCalibrationMap
  rw [show max 0 (min 1 (0.57 : ℚ)) = 0.57 by norm_num [min_def, max_def]]
  simp only [calibrateLoop]
  rw [if_neg (by norm_num), if_neg (by norm_num), if_neg (by norm_num),
    if_neg (by norm_num), if_pos (by norm_num)]
  simp [hp]

theorem calibrate_rep45 : calibrate defaultCalibrationMap (0.45 : ℚ) = 0.45 := by
  have hp : pyRound 2 (0.45 : ℚ) = 0.45 := by
    rw [pyRound_two_eq (0.45 : ℚ) 45 (by norm_num)]
    norm_num
  unfold calibrate defaultCalibrationMap
  rw [show max 0 (min 1 (0.45 : ℚ)) = 0.45 by norm_num [min_def, max_def]]
  simp only [calibrateLoop]
  rw [if_neg (by norm_num), if_neg (by norm_num), if_neg (by norm_num),
    if_neg (by norm_num), if_neg (by norm_num), if_pos (by norm_num)]
  simp [hp]

theorem calibrate_rep30 : calibrate defaultCalibrationMap (0.30 : ℚ) = 0.30 := by
  have hp : pyRound 2 (0.30 : ℚ) = 0.30 := by
    rw [pyRound_two_eq (0.30 : ℚ) 30 (by norm_num)]
    norm_num
  unfold calibrate defaultCalibrationMap
  rw [show max 0 (min 1 (0.30 : ℚ)) = 0.30 by norm_num [min_def, max_def]]
  simp only [calibrateLoop]
  rw [if_neg (by norm_num), if_neg (by norm_num), if_neg (by norm_num),
    if_neg (by norm_num), if_neg (by norm_num), if_neg (by norm_num),
    if_pos (by norm_num)]
  simp [hp]

/-- On [0,1] the calibrator always lands in a bin, so its output is one of
the seven representative values. -/
theorem calibrate_mem_reps (s : ℚ) (h0 : 0 ≤ s) (h1 : s ≤ 1) :
    calibrate defaultCalibrationMap s = 0.95 ∨ calibrate defaultCalibrationMap s = 0.87 ∨
    calibrate defaultCalibrationMap s = 0.78 ∨ calibrate defaultCalibrationMap s = 0.68 ∨
    calibrate defaultCalibrationMap s = 0.57 ∨ calibrate defaultCalibrationMap s = 0.45 ∨
    calibrate defaultCalibrationMap s = 0.30 := by
  have hs : max 0 (min 1 s) = s := by rw [min_eq_right h1, max_eq_right h0]
  have h1' : s ≤ (1.00 : ℚ) := by norm_num; exact h1
  have hstart : calibrate defaultCalibrationMap s
      = (calibrateLoop s defaultCalibrationMap).getD (pyRound 2 s) := by
    unfold calibrate
    rw [hs]
  rcases le_or_lt (0.90 : ℚ) s with hb | hb1
  · refine Or.inl ?_
    rw [hstart]
    unfold defaultCalibrationMap
    simp only [calibrateLoop]
    rw [if_pos ⟨hb, h1'⟩]
    have hp : pyRound 2 (0.95 : ℚ) = 0.95 := by
      rw [pyRound_two_eq (0.95 : ℚ) 95 (by norm_num)]; norm_num
    simp [hp]
  rcases le_or_lt (0.80 : ℚ) s with hb | hb2
  · refine Or.inr (Or.inl ?_)
    rw [hstart]
    unfold defaultCalibrationMap
    simp only [calibrateLoop]
    rw [if_neg (by rintro ⟨hc, -⟩; linarith), if_pos ⟨hb, le_of_lt hb1⟩]
    have hp : pyRound 2 (0.87 : ℚ) = 0.87 := by
      rw [pyRound_two_eq (0.87 : ℚ) 87 (by norm_num)]; norm_num
    simp [hp]
  rcases le_or_lt (0.70 : ℚ) s with hb | hb3
  · refine Or.inr (Or.inr (Or.inl ?_))
    rw [hstart]
    unfold defaultCalibrationMap
    simp only [calibrateLoop]
    rw [if_neg (by rintro ⟨hc, -⟩; linarith), if_neg (by rintro ⟨hc, -⟩; linarith),
      if_pos ⟨hb, le_of_lt hb2⟩]
    have hp : pyRound 2 (0.78 : ℚ) = 0.78 := by
      rw [pyRound_two_eq (0.78 : ℚ) 78 (by norm_num)]; norm_num
    simp [hp]
  rcases le_or_lt (0.60 : ℚ) s with hb | hb4
  · refine Or.inr (Or.inr (Or.inr (Or.inl ?_)))
    rw [hstart]
    unfold defaultCalibrationMap
    simp only [calibrateLoop]
    rw [if_neg (by rintro ⟨hc, -⟩; linarith), if_neg (by rintro ⟨hc, -⟩; linarith),
      if_neg (by rintro ⟨hc, -⟩; linarith), if_pos ⟨hb, le_of_lt hb3⟩]
    have hp : pyRound 2 (0.68 : ℚ) = 0.68 := by
      rw [pyRound_two_eq (0.68 : ℚ) 68 (by norm_num)]; norm_num
    simp [hp]
  rcases le_or_lt (0.50 : ℚ) s with hb | hb5
  · refine Or.inr (Or.inr (Or.inr (Or.inr (Or.inl ?_))))
    rw [hstart]
    unfold defaultCalibrationMap
    simp only [calibrateLoop]
    rw [if_neg (by rintro ⟨hc, -⟩; linarith), if_neg (by rintro ⟨hc, -⟩; linarith),
      if_neg (by rintro ⟨hc, -⟩; linarith), if_neg (by rintro ⟨hc, -⟩; linarith),
      if_pos ⟨hb, le_of_lt hb4⟩]
    have hp : pyRound 2 (0.57 : ℚ) = 0.57 := by
      rw [pyRound_two_eq (0.57 : ℚ) 57 (by norm_num)]; norm_num
    simp [hp]
  rcases le_or_lt (0.40 : ℚ) s with hb | hb6
  · refine Or.inr (Or.inr (Or.inr (Or.inr (Or.inr (Or.inl ?_)))))
    rw [hstart]
    unfold defaultCalibrationMap
    simp only [calibrateLoop]
    rw [if_neg (by rintro ⟨hc, -⟩; linarith), if_neg (by rintro ⟨hc, -⟩; linarith),
      if_neg (by rintro ⟨hc, -⟩; linarith), if_neg (by rintro ⟨hc, -⟩; linarith),
      if_neg (by rintro ⟨hc, -⟩; linarith), if_pos ⟨hb, le_of_lt hb5⟩]
    have hp : pyRound 2 (0.45 : ℚ) = 0.45 := by
      rw [pyRound_two_eq (0.45 : ℚ) 45 (by norm_num)]; norm_num
    simp [hp]
  · refine Or.inr (Or.inr (Or.inr (Or.inr (Or.inr (Or.inr ?_)))))
    rw [hstart]
    unfold defaultCalibrationMap
    simp only [calibrateLoop]
    rw [if_neg (by rintro ⟨hc, -⟩; linarith), if_neg (by rintro ⟨hc, -⟩; linarith),
      if_neg (by rintro ⟨hc, -⟩; linarith), if_neg (by rintro ⟨hc, -⟩; linarith),
      if_neg (by rintro ⟨hc, -⟩; linarith), if_neg (by rintro ⟨hc, -⟩; linarith),
      if_pos ⟨by linarith, le_of_lt hb6⟩]
    have hp : pyRound 2 (0.30 : ℚ) = 0.30 := by
      rw [pyRound_two_eq (0.30 : ℚ) 30 (by norm_num)]; norm_num
    simp [hp]

/-- On [0, 0.69] the calibrator lands in one of the four lower bins, so
its output never exceeds 0.69. -/
theorem calibrate_le_069 (s : ℚ) (h0 : 0 ≤ s) (h69 : s ≤ 0.69) :
    calibrate defaultCalibrationMap s ≤ 0.69 := by
  have h1 : s ≤ 1 := by
    have : (0.69 : ℚ) ≤ 1 := by norm_num
    linarith
  have hs : max 0 (min 1 s) = s := by rw [min_eq_right h1, max_eq_right h0]
  have hstart : calibrate defaultCalibrationMap s
      = (calibrateLoop s defaultCalibrationMap).getD (pyRound 2 s) := by
    unfold calibrate
    rw [hs]
  rw [hstart]
  unfold defaultCalibrationMap
  simp only [calibrateLoop]
  rw [if_neg (by rintro ⟨hc, -⟩; linarith), if_neg (by rintro ⟨hc, -⟩; linarith),
    if_neg (by rintro ⟨hc, -⟩; linarith)]
  rcases le_or_lt (0.60 : ℚ) s with hb | hb4
  · rw [if_pos ⟨hb, by linarith⟩]
    have hp : pyRound 2 (0.68 : ℚ) = 0.68 := by
      rw [pyRound_two_eq (0.68 : ℚ) 68 (by norm_num)]; norm_num
    simp [hp]
    norm_num
  rcases le_or_lt (0.50 : ℚ) s with hb | hb5
  · rw [if_neg (by rintro ⟨hc, -⟩; linarith), if_pos ⟨hb, le_of_lt hb4⟩]
    have hp : pyRound 2 (0.57 : ℚ) = 0.57 := by
      rw [pyRound_two_eq (0.57 : ℚ) 57 (by norm_num)]; norm_num
    simp [hp]
    norm_num
  rcases le_or_lt (0.40 : ℚ) s with hb | hb6
  · rw [if_neg (by rintro ⟨hc, -⟩; linarith), if_neg (by rintro ⟨hc, -⟩; linarith),
      if_pos ⟨hb, le_of_lt hb5⟩]
    have hp : pyRound 2 (0.45 : ℚ) = 0.45 := by
      rw [pyRound_two_eq (0.45 : ℚ) 45 (by norm_num)]; norm_num
    simp [hp]
    norm_num
  · rw [if_neg (by rintro ⟨hc, -⟩; linarith), if_neg (by rintro ⟨hc, -⟩; linarith),
      if_neg (by rintro ⟨hc, -⟩; linarith), if_pos ⟨by linarith, le_of_lt hb6⟩]
    have hp : pyRound 2 (0.30 : ℚ) = 0.30 := by
      rw [pyRound_two_eq (0.30 : ℚ) 30 (by norm_num)]; norm_num
    simp [hp]
    norm_num

/-! ### Claim C9 -/

/-- Claim C9: calibration is idempotent on representative bin values —
calibrating a score equal to any bin's output value returns that value —
and, equivalently, `calibrate (calibrate s) = calibrate s` for every score
`s` in [0, 1]. -/
theorem calibrate_idempotent :
    (∀ bin ∈ defaultCalibrationMap,
      calibrate defaultCalibrationMap bin.2 = bin.2) ∧
    (∀ s : ℚ, 0 ≤ s → s ≤ 1 →
      calibrate defaultCalibrationMap (calibrate defaultCalibrationMap s)
        = calibrate defaultCalibrationMap s) := by
  constructor
  · intro bin hbin
    simp only [defaultCalibrationMap, List.mem_cons, List.not_mem_nil, or_false] at hbin
    rcases hbin with h | h | h | h | h | h | h
    · rw [h]; exact calibrate_rep95
    · rw [h]; exact calibrate_rep87
    · rw [h]; exact calibrate_rep78
    · rw [h]; exact calibrate_rep68
    · rw [h]; exact calibrate_rep57
    · rw [h]; exact calibrate_rep45
    · rw [h]; exact calibrate_rep30
  · intro s h0 h1
    rcases calibrate_mem_reps s h0 h1 with h | h | h | h | h | h | h
    · rw [h]; exact calibrate_rep95
    · rw [h]; exact calibrate_rep87
    · rw [h]; exact calibrate_rep78
    · rw [h]; exact calibrate_rep68
    · rw [h]; exact calibrate_rep57
    · rw [h]; exact calibrate_rep45
    · rw [h]; exact calibrate_rep30

/-- Witness for claim C9: the 0.68 bin representative and the concrete
score 1. -/
theorem calibrate_idempotent_witness :
    calibrate defaultCalibrationMap (((0.60, 0.70), 0.68) : (ℚ × ℚ) × ℚ).2
      = (((0.60, 0.70), 0.68) : (ℚ × ℚ) × ℚ).2 ∧
    calibrate defaultCalibrationMap (calibrate defaultCalibrationMap 1)
      = calibrate defaultCalibrationMap 1 :=
  ⟨calibrate_idempotent.1 ((0.60, 0.70), 0.68) (by simp [defaultCalibrationMap]),
   calibrate_idempotent.2 1 (by norm_num) (by norm_num)⟩

/-! ### Claim C2 -/

/-- The cap-then-round tail of the score pipeline keeps any input inside
[0, 0.69]. -/
theorem pyRound_min_clamp_bounds (x : ℚ) :
    0 ≤ pyRound 2 (min (max 0 (min 1 x)) 0.69) ∧
    pyRound 2 (min (max 0 (min 1 x)) 0.69) ≤ 0.69 := by
  constructor
  · exact pyRound_two_nonneg _ (le_min (le_max_left 0 _) (by norm_num))
  · have h : min (max 0 (min 1 x)) 0.69 ≤ 0.69 := min_le_right _ _
    have hb := pyRound_two_le (min (max 0 (min 1 x)) 0.69) 69 (by push_cast; linarith)
    calc pyRound 2 (min (max 0 (min 1 x)) 0.69) ≤ ((69 : ℤ) : ℚ) / 100 := hb
      _ = 0.69 := by norm_num

/-- With an "Unknown" risk label, `calculate_confidence_score_v2` is
within [0, 0.69] for every configuration and every component input. -/
theorem calculate_confidence_score_v2_unknown_bounds (cfg : ConfidenceConfig)
    (evidenceLevel : String) (vcfQuality annotationCompleteness : ℚ)
    (phenotype diplotype : String) (ruleMatch : Bool) (geneSupportScore : ℚ) :
    0 ≤ calculate_confidence_score_v2 cfg evidenceLevel vcfQuality annotationCompleteness
        phenotype diplotype "Unknown" ruleMatch geneSupportScore ∧
    calculate_confidence_score_v2 cfg evidenceLevel vcfQuality annotationCompleteness
        phenotype diplotype "Unknown" ruleMatch geneSupportScore ≤ 0.69 := by
  unfold calculate_confidence_score_v2
  simp only [if_true]
  exact pyRound_min_clamp_bounds _

/-- Claim C2: for every analysis input whose resolved risk label is
"Unknown", the final confidence returned to the caller — weighted average
clamped to [0,1], capped at 0.69, rounded, minus the (nonnegative)
phenoconversion penalty floored at 0.0, then post-hoc calibrated — is at
most 0.69, for every configuration. -/
theorem analyze_drug_confidence_unknown_capped (cfg : ConfidenceConfig)
    (evidenceLevel : String) (vcfQuality annotationCompleteness : ℚ)
    (phenotype diplotype riskLabel : String) (ruleMatch : Bool)
    (geneSupportScore penalty : ℚ)
    (hrl : riskLabel = "Unknown") (hpen : 0 ≤ penalty) :
    analyze_drug_confidence cfg evidenceLevel vcfQuality annotationCompleteness
      phenotype diplotype riskLabel ruleMatch geneSupportScore penalty ≤ 0.69 := by
  subst hrl
  obtain ⟨h0, h69⟩ := calculate_confidence_score_v2_unknown_bounds cfg evidenceLevel
    vcfQuality annotationCompleteness phenotype diplotype ruleMatch geneSupportScore
  unfold analyze_drug_confidence
  simp only []
  exact calibrate_le_069 _ (le_max_left 0 _) (max_le (by norm_num) (by linarith))

/-- Witness for claim C2: a fully concrete unmatched case with maximal
component inputs and zero penalty. -/
theorem analyze_drug_confidence_unknown_capped_witness :
    analyze_drug_confidence defaultConfidenceConfig "1A" 100 1 "Unknown" "*1/*1"
      "Unknown" false 1 0 ≤ 0.69 :=
  analyze_drug_confidence_unknown_capped defaultConfidenceConfig "1A" 100 1 "Unknown"
    "*1/*1" "Unknown" false 1 0 rfl (le_refl 0)

/-! ### Claim C8 -/

/-- The record built by `finishDataLine` carries the quality value the
line passed into it. -/
theorem finishDataLine_qual (chrom : String) (pos : ℤ) (rsid0 ref alt : String)
    (qual : ℚ) (f7 : List Char) (rest : List (List Char)) (v : VariantRecord)
    (h : finishDataLine chrom pos rsid0 ref alt qual f7 rest = some v) :
    v.qual = qual := by
  unfold finishDataLine at h
  simp only [] at h
  repeat split at h
  all_goals first
    | (cases h
       rfl)
    | (simp at h)
  all_goals rw [← h.2]

/-- Any record produced from a data line passed the minimum-quality
gate. -/
theorem processDataLine_qual (floatParse : String → Option ℚ)
    (intParse : String → Option ℤ) (minQual : ℚ) (line : List Char)
    (v : VariantRecord)
    (h : processDataLine floatParse intParse minQual line = some v) :
    minQual ≤ v.qual := by
  unfold processDataLine at h
  simp only [] at h
  rcases hsf : splitChar '\t' line with _ |
      ⟨f0, _ | ⟨f1, _ | ⟨f2, _ | ⟨f3, _ | ⟨f4, _ | ⟨f5, _ | ⟨f6, _ | ⟨f7, rest⟩⟩⟩⟩⟩⟩⟩⟩ <;>
    rw [hsf] at h
  all_goals try simp at h
  repeat split at h
  all_goals try simp at h
  all_goals rw [finishDataLine_qual _ _ _ _ _ _ _ _ _ h.2]
  all_goals exact h.1

/-- The line loop preserves the minimum-quality invariant of the
accumulated record list. -/
theorem parseLineStep_invariant (floatParse : String → Option ℚ)
    (intParse : String → Option ℤ) (minQual : ℚ) (st : Bool × List VariantRecord)
    (rawLine : List Char) (hst : ∀ r ∈ st.2, minQual ≤ r.qual) :
    ∀ r ∈ (parseLineStep floatParse intParse minQual st rawLine).2,
      minQual ≤ r.qual := by
  unfold parseLineStep
  simp only []
  split
  · exact hst
  · split
    · exact hst
    · split
      · exact hst
      · split
        · exact hst
        · split
          next v hv =>
            intro r hr
            rcases List.mem_append.mp hr with hr | hr
            · exact hst r hr
            · rw [List.mem_singleton.mp hr]
              exact processDataLine_qual _ _ _ _ _ hv
          next => exact hst

/-- The invariant extends over the whole fold. -/
theorem foldl_parseLineStep_invariant (floatParse : String → Option ℚ)
    (intParse : String → Option ℤ) (minQual : ℚ) :
    ∀ (lines : List (List Char)) (st : Bool × List VariantRecord),
      (∀ r ∈ st.2, minQual ≤ r.qual) →
      ∀ r ∈ (lines.foldl (parseLineStep floatParse intParse minQual) st).2,
        minQual ≤ r.qual := by
  intro lines
  induction lines with
  | nil => intro st hst; exact hst
  | cons l t ih =>
    intro st hst
    exact ih _ (parseLineStep_invariant _ _ _ _ _ hst)

/-- Claim C8: every record in the output of `parse_vcf_content` has
quality at least the configured minimum, and a data line whose quality
field is "." or unparsable (both treated as 0.0) or whose parsed quality
is below the minimum produces no record — for every numeric-parser
instantiation. -/
theorem parse_vcf_content_quality_gate (floatParse : String → Option ℚ)
    (intParse : String → Option ℤ) (content : String) (minQual : ℚ) :
    (∀ r ∈ parse_vcf_content floatParse intParse content minQual,
      minQual ≤ r.qual) ∧
    (∀ (line f0 f1 f2 f3 f4 f5 f6 f7 : List Char) (rest : List (List Char)),
      splitChar '\t' line = f0 :: f1 :: f2 :: f3 :: f4 :: f5 :: f6 :: f7 :: rest →
      0 < minQual →
      (f5 = ['.'] ∨ floatParse f5.asString = none ∨
        ∃ q, floatParse f5.asString = some q ∧ q < minQual) →
      processDataLine floatParse intParse minQual line = none) := by
  constructor
  · exact foldl_parseLineStep_invariant floatParse intParse minQual _ _ (by simp)
  · intro line f0 f1 f2 f3 f4 f5 f6 f7 rest hsplit hmin hq
    have hqual : (if f5 = ['.'] then 0 else (floatParse f5.asString).getD 0) < minQual := by
      rcases hq with h | h | ⟨q, hq1, hq2⟩
      · rw [if_pos h]; exact hmin
      · rcases eq_or_ne f5 ['.'] with h5 | h5
        · rw [if_pos h5]; exact hmin
        · rw [if_neg h5, h]; exact hmin
      · rcases eq_or_ne f5 ['.'] with h5 | h5
        · rw [if_pos h5]; exact hmin
        · rw [if_neg h5, hq1]; exact hq2
    unfold processDataLine
    simp only []
    rw [hsplit]
    have hlen : ¬ (f0 :: f1 :: f2 :: f3 :: f4 :: f5 :: f6 :: f7 :: rest).length < 8 := by
      simp
    rw [if_neg hlen]
    cases hip : intParse f1.asString with
    | none => simp [hip]
    | some pos =>
      simp only [hip]
      rw [if_pos hqual]

/-- Witness for claim C8: a concrete header-plus-one-line file parses to
one record with quality 99 ≥ 20, and a line with quality "." yields no
record. -/
theorem parse_vcf_content_quality_gate_witness :
    (20 : ℚ) ≤ (⟨"22", 1, "rs1", "G", "A", 99, "CYP2D6", "*4", "0/1", none⟩ :
      VariantRecord).qual ∧
    processDataLine parseSimpleQual parseSimpleInt 20
      ("22\t1\trs1\tG\tA\t.\tPASS\tGENE=CYP2D6".data) = none :=
  ⟨(parse_vcf_content_quality_gate parseSimpleQual parseSimpleInt
      "#CHROM\n22\t1\trs1\tG\tA\t99\tPASS\tGENE=CYP2D6;STAR=*4" 20).1
      ⟨"22", 1, "rs1", "G", "A", 99, "CYP2D6", "*4", "0/1", none⟩ (by decide),
   (parse_vcf_content_quality_gate parseSimpleQual parseSimpleInt
      "#CHROM\n22\t1\trs1\tG\tA\t99\tPASS\tGENE=CYP2D6;STAR=*4" 20).2
      ("22\t1\trs1\tG\tA\t.\tPASS\tGENE=CYP2D6".data)
      "22".data "1".data "rs1".data "G".data "A".data ".".data "PASS".data
      "GENE=CYP2D6".data [] (by decide) (by decide) (Or.inl rfl)⟩

end PharmaGuard
